import Mathlib

/-!
Verification of the Dust repository against its natural-language specification.

Each module below is a shallow embedding of one source file (or a cohesive part
of one), translated directly from the TypeScript source.  Machine numbers are
modelled as `Nat` (all quantities involved are nonnegative integers: sizes,
ids, timestamps, token counts), JavaScript `null`/`undefined` as `Option`,
thrown errors as `Except`, and the ORM/HTTP/network environment as explicit
function parameters threaded through the definitions.
-/

namespace Zendesk

/-!
Embedding of the Zendesk internal-id conversion helpers
(`getBrandInternalId`, `_getIdFromInternal`, `getBrandIdFromInternalId`, ...).

`ModelId` (a database integer id) and the resource ids are modelled as `Nat`.
Template-literal interpolation `${n}` renders the number in decimal; this is
modelled by `natToDecimal` below, written with an explicit fuel argument (the
same shape as core's `Nat.toDigits`) so that it stays kernel-reducible.
-/

/-- Decimal rendering core: `natToDecimalCore fuel n acc` prepends the decimal
digits of `n` to `acc`, consuming one unit of fuel per digit. -/
def natToDecimalCore : Nat → Nat → List Char → List Char
  | 0, _, acc => acc
  | fuel + 1, n, acc =>
    if n < 10 then Nat.digitChar n :: acc
    else natToDecimalCore fuel (n / 10) (Nat.digitChar (n % 10) :: acc)

/-- Decimal digit list of `n` (most significant first). -/
def natDigits (n : Nat) : List Char :=
  natToDecimalCore (n + 1) n []

/-- Decimal string of a nonnegative number, as produced by JavaScript
template-literal interpolation `${n}`. -/
def natToDecimal (n : Nat) : String :=
  ⟨natDigits n⟩

/-- Model of the JavaScript `String.prototype.startsWith(prefixString)`. -/
def jsStartsWith (s pat : String) : Bool :=
  pat.data.isPrefixOf s.data

/-- Model of the JavaScript `String.prototype.replace(pat, "")` with a string
pattern: only the first occurrence of `pat` is removed. -/
def replaceFirstAux : List Char → List Char → List Char
  | [], _ => []
  | c :: cs, pat =>
    if pat.isPrefixOf (c :: cs) then (c :: cs).drop pat.length
    else c :: replaceFirstAux cs pat

/-- String-level wrapper of `replaceFirstAux`. -/
def replaceFirst (s pat : String) : String :=
  ⟨replaceFirstAux s.data pat.data⟩

/-- Digit-sequence parser underlying `jsParseInt`: consumes leading decimal
digits, accumulating their value, and stops at the first non-digit. -/
def parseDigits : List Char → Nat → Nat
  | [], acc => acc
  | c :: cs, acc =>
    if c.isDigit then parseDigits cs (10 * acc + (c.toNat - 48)) else acc

/-- Model of the JavaScript `parseInt` on the strings reachable in this module
(no leading whitespace, sign, or radix prefix): the value of the maximal run
of leading decimal digits, or `none` (for `NaN`) when there is none. -/
def jsParseInt (s : String) : Option Nat :=
  match s.data with
  | [] => none
  | c :: _ => if c.isDigit then some (parseDigits s.data 0) else none

/-- Embedding of `getBrandInternalId`. -/
def getBrandInternalId (connectorId brandId : Nat) : String :=
  "zendesk-brand-" ++ natToDecimal connectorId ++ "-" ++ natToDecimal brandId

/-- Embedding of `getHelpCenterInternalId`. -/
def getHelpCenterInternalId (connectorId : Nat) : String :=
  "zendesk-help-center-" ++ natToDecimal connectorId

/-- Embedding of `getCategoryInternalId`. -/
def getCategoryInternalId (connectorId categoryId : Nat) : String :=
  "zendesk-category-" ++ natToDecimal connectorId ++ "-" ++ natToDecimal categoryId

/-- Embedding of `getArticleInternalId`. -/
def getArticleInternalId (connectorId articleId : Nat) : String :=
  "zendesk-article-" ++ natToDecimal connectorId ++ "-" ++ natToDecimal articleId

/-- Embedding of `getTicketsInternalId`. -/
def getTicketsInternalId (connectorId : Nat) : String :=
  "zendesk-tickets-" ++ natToDecimal connectorId

/-- Embedding of `getTicketInternalId`. -/
def getTicketInternalId (connectorId teamId : Nat) : String :=
  "zendesk-ticket-" ++ natToDecimal connectorId ++ "-" ++ natToDecimal teamId

/-- Embedding of `getConversationInternalId`.  Note that the source builds the
string with the `zendesk-category-` prefix, not a conversation-specific one. -/
def getConversationInternalId (connectorId conversationId : Nat) : String :=
  "zendesk-category-" ++ natToDecimal connectorId ++ "-" ++ natToDecimal conversationId

/-- Embedding of `_getIdFromInternal`. -/
def _getIdFromInternal (internalId pfx : String) : Option Nat :=
  if jsStartsWith internalId pfx then jsParseInt (replaceFirst internalId pfx)
  else none

/-- Embedding of `getBrandIdFromInternalId`. -/
def getBrandIdFromInternalId (connectorId : Nat) (internalId : String) : Option Nat :=
  _getIdFromInternal internalId ("zendesk-brand-" ++ natToDecimal connectorId ++ "-")

/-- Embedding of `isInternalIdOnWholeHelpCenter`. -/
def isInternalIdOnWholeHelpCenter (connectorId : Nat) (internalId : String) : Bool :=
  internalId == "zendesk-help-center-" ++ natToDecimal connectorId

/-- Embedding of `getCategoryIdFromInternalId`. -/
def getCategoryIdFromInternalId (connectorId : Nat) (internalId : String) : Option Nat :=
  _getIdFromInternal internalId ("zendesk-category-" ++ natToDecimal connectorId ++ "-")

/-- Embedding of `getArticleIdFromInternalId`. -/
def getArticleIdFromInternalId (connectorId : Nat) (internalId : String) : Option Nat :=
  _getIdFromInternal internalId ("zendesk-article-" ++ natToDecimal connectorId ++ "-")

/-- Embedding of `isInternalIdOnAllTickets`. -/
def isInternalIdOnAllTickets (connectorId : Nat) (internalId : String) : Bool :=
  internalId == "zendesk-tickets-" ++ natToDecimal connectorId

/-- Embedding of `getTicketIdFromInternalId`. -/
def getTicketIdFromInternalId (connectorId : Nat) (internalId : String) : Option Nat :=
  _getIdFromInternal internalId ("zendesk-ticket-" ++ natToDecimal connectorId ++ "-")

end Zendesk

namespace AuthWrap

/-!
Embedding of the API-route authentication wrappers `withSessionAuthentication`,
`withSessionAuthenticationForWorkspace` and `withPublicAPIAuthentication`.

A wrapped route either sends an api error response (`apiError` with its HTTP
status code, `api_error.type` and message) or invokes the wrapped handler
(`handled`).  The session type `S` and the handler result type `T` are
abstract; `getSession`, `Authenticator.fromSession`, token verification and
the other environment calls are explicit function parameters, so the theorems
quantify over every possible behaviour of those services.
-/

/-- Result of a wrapped API route. -/
inductive Outcome (T : Type) where
  | apiError (status : Nat) (errType : String) (message : String)
  | handled (t : T)
deriving DecidableEq

/-- Next.js query / header value: `string | string[]`; an absent entry is
`none` at the use sites. -/
inductive QueryVal where
  | str (s : String)
  | arr (l : List String)
deriving DecidableEq

/-- Authenticator surface used by the wrappers: whether `workspace()`,
`plan()` and `user()` are non-null, and the role predicates `isUser()` /
`isBuilder()`. -/
structure Authenticator where
  hasWorkspace : Bool
  hasPlan : Bool
  hasUser : Bool
  isUser : Bool
  isBuilder : Bool
deriving DecidableEq

/-- Embedding of `withSessionAuthentication`: reject with 401
`not_authenticated` when `getSession` returned no session, otherwise call the
handler with the session. -/
def withSessionAuthentication {S T : Type}
    (handler : S → Outcome T) (session? : Option S) : Outcome T :=
  match session? with
  | none =>
    Outcome.apiError 401 "not_authenticated"
      "The user does not have an active session or is not authenticated."
  | some session => handler session

/-- Embedding of `withSessionAuthenticationForWorkspace`.  `fromSession`
models `Authenticator.fromSession(session, wId)`. -/
def withSessionAuthenticationForWorkspace {S T : Type}
    (fromSession : S → String → Authenticator)
    (handler : Authenticator → S → Outcome T)
    (allowUserOutsideCurrentWorkspace : Bool)
    (wId? : Option QueryVal) (session? : Option S) : Outcome T :=
  withSessionAuthentication
    (fun session =>
      match wId? with
      | some (QueryVal.str wId) =>
        if wId = "" then
          Outcome.apiError 404 "workspace_not_found" "The workspace was not found."
        else
          let auth := fromSession session wId
          if !auth.hasWorkspace || !auth.hasPlan then
            Outcome.apiError 404 "workspace_not_found" "The workspace was not found."
          else if !auth.hasUser then
            Outcome.apiError 404 "workspace_user_not_found"
              "Could not find the user of the current session."
          else if !auth.isUser && !allowUserOutsideCurrentWorkspace then
            Outcome.apiError 401 "workspace_auth_error"
              "Only users of the workspace can access this route."
          else handler auth session
      | _ => Outcome.apiError 404 "workspace_not_found" "The workspace was not found.")
    session?

/-- Authentication method recognised by `getAuthType`. -/
inductive AuthMethod where
  | access_token
  | api_key
deriving DecidableEq

/-- Environment of `withPublicAPIAuthentication`: the bearer-token extraction,
`getAuthType`, Auth0 verification, `Authenticator.fromAuth0Token`, `getAPIKey`,
`Authenticator.fromKey` (returning `(keyAuth, workspaceAuth)`), the
`x-api-user-email` header and `exchangeSystemKeyForUserAuthByEmail`. -/
structure PubEnv where
  getBearerToken : Except Unit String
  getAuthType : String → AuthMethod
  verifyAuth0Token : String → Except Unit String
  fromAuth0Token : String → String → Authenticator
  getAPIKey : Except (Nat × String × String) String
  fromKey : String → String → Authenticator × Authenticator
  userEmailHeader : Option QueryVal
  exchangeSystemKeyForUserAuthByEmail : Authenticator → String → Option Authenticator

/-- Embedding of `withPublicAPIAuthentication`. -/
def withPublicAPIAuthentication {T : Type} (env : PubEnv)
    (handler : Authenticator → Option Authenticator → Outcome T)
    (allowUserOutsideCurrentWorkspace : Bool)
    (wId? : Option QueryVal) : Outcome T :=
  match wId? with
  | some (QueryVal.str wId) =>
    if wId = "" then
      Outcome.apiError 404 "workspace_not_found" "The workspace was not found."
    else
      match env.getBearerToken with
      | Except.error _ =>
        Outcome.apiError 401 "not_authenticated"
          "The request does not have valid authentication credentials."
      | Except.ok token =>
        match env.getAuthType token with
        | AuthMethod.access_token =>
          match env.verifyAuth0Token token with
          | Except.error _ =>
            Outcome.apiError 401 "not_authenticated"
              "The request does not have valid authentication credentials."
          | Except.ok decoded =>
            let auth := env.fromAuth0Token decoded wId
            if !auth.hasUser then
              Outcome.apiError 401 "not_authenticated"
                "The user does not have an active session or is not authenticated."
            else if !auth.isUser then
              Outcome.apiError 401 "workspace_auth_error"
                "Only users of the workspace can access this route."
            else handler auth none
        | AuthMethod.api_key =>
          match env.getAPIKey with
          | Except.error e => Outcome.apiError e.1 e.2.1 e.2.2
          | Except.ok key =>
            let keyAndWorkspaceAuth := env.fromKey key wId
            let keyAuth := keyAndWorkspaceAuth.1
            let workspaceAuth := keyAndWorkspaceAuth.2
            if !workspaceAuth.hasWorkspace || !workspaceAuth.hasPlan then
              Outcome.apiError 404 "workspace_not_found" "The workspace was not found."
            else if !workspaceAuth.isBuilder && !allowUserOutsideCurrentWorkspace then
              Outcome.apiError 401 "workspace_auth_error"
                "Only users of the workspace can access this route."
            else
              let workspaceAuth2 :=
                match env.userEmailHeader, allowUserOutsideCurrentWorkspace with
                | some (QueryVal.str email), false =>
                  (env.exchangeSystemKeyForUserAuthByEmail workspaceAuth email).getD
                    workspaceAuth
                | _, _ => workspaceAuth
              handler workspaceAuth2
                (if allowUserOutsideCurrentWorkspace then some keyAuth else none)
  | _ => Outcome.apiError 404 "workspace_not_found" "The workspace was not found."

/-- Status code of the response, when an api error was sent. -/
def Outcome.status? {T : Type} : Outcome T → Option Nat
  | Outcome.apiError s _ _ => some s
  | Outcome.handled _ => none

end AuthWrap

namespace Datasets

/-!
Embedding of `getDatasetHash` from `front/lib/api/datasets.ts`.

The ORM `Dataset` table is a list of rows, the authenticator exposes its
optional workspace, and the two core-API calls (`DustAPI.getDatasets`,
`DustAPI.getDataset`) are environment functions.  The dataset `data` payload
is an abstract type `D`.
-/

/-- Workspace row: only the primary key is relevant here. -/
structure WorkspaceRow where
  id : Nat
deriving DecidableEq

/-- Authenticator surface used by `getDatasetHash`: `auth.workspace()`. -/
structure Auth where
  workspace : Option WorkspaceRow
deriving DecidableEq

/-- Relevant columns of an `AppType`. -/
structure AppType where
  internalId : Nat
  dustAPIProjectId : String
deriving DecidableEq

/-- Row of the `Dataset` table. -/
structure DatasetRow where
  workspaceId : Nat
  appId : Nat
  name : String
  description : Option String
deriving DecidableEq

/-- Returned `DatasetType` including the fetched `data`. -/
structure DatasetType (D : Type) where
  name : String
  description : Option String
  data : D

/-- Core-API surface used by `getDatasetHash`: `getDatasets` returns, per
dataset name, the list of hashes (most recent first); `getDataset` fetches
the content of one dataset version. -/
structure CoreEnv (D : Type) where
  getDatasets : String → Except Unit (List (String × List String))
  getDataset : String → String → String → Except Unit D

/-- Lookup in the record `{ [name]: {hash}[] }` returned by the core API. -/
def recLookup (r : List (String × List String)) (name : String) : Option (List String) :=
  (r.find? (fun p => p.1 == name)).map (fun p => p.2)

/-- Embedding of `getDatasetHash`. -/
def getDatasetHash {D : Type} (env : CoreEnv D) (datasetTable : List DatasetRow)
    (auth : Auth) (app : AppType) (name hash : String) : Option (DatasetType D) :=
  match auth.workspace with
  | none => none
  | some owner =>
    match datasetTable.find? (fun d =>
        d.workspaceId == owner.id && d.appId == app.internalId && d.name == name) with
    | none => none
    | some dataset =>
      let hashResolved : Option String :=
        if hash == "latest" then
          match env.getDatasets app.dustAPIProjectId with
          | Except.error _ => none
          | Except.ok apiDatasets =>
            match recLookup apiDatasets dataset.name with
            | none => none
            | some hashes =>
              match hashes with
              | [] => none
              | h0 :: _ => some h0
        else some hash
      match hashResolved with
      | none => none
      | some h =>
        match env.getDataset app.dustAPIProjectId dataset.name h with
        | Except.error _ => none
        | Except.ok d =>
          some (DatasetType.mk dataset.name dataset.description d)

end Datasets

namespace IncludeFile

/-!
Embedding of `isConversationIncludableFileContentType` and
`ConversationIncludeFileAction.renderForMultiActionsModel` from
`front/lib/api/assistant/actions/conversation/include_file.ts`.

`SupportedContentFragmentType` is the enumeration from the SDK schema in
`sdks/js/src/types.ts`.  Rendering of a content fragment and tokenization are
core-API / resource-layer calls, modelled as environment functions.
-/

/-- Enumeration of `SupportedContentFragmentType` (from the SDK schema):
nine text content types, two image content types, and the legacy Slack one. -/
inductive SupportedContentFragmentType where
  | application_msword
  | application_docx
  | application_pdf
  | text_comma_separated_values
  | text_csv
  | text_markdown
  | text_plain
  | text_tab_separated_values
  | text_tsv
  | image_jpeg
  | image_png
  | dust_application_slack
deriving DecidableEq, Fintype

/-- Modelled from the spec: `isSupportedImageContentType` lives in
`@dust-tt/types`, which is not among the provided sources; the SDK schema in
`sdks/js/src/types.ts` lists the image content types as exactly `image/jpeg`
and `image/png`. -/
def isSupportedImageContentType : SupportedContentFragmentType → Bool
  | SupportedContentFragmentType.image_jpeg => true
  | SupportedContentFragmentType.image_png => true
  | _ => false

/-- Embedding of `isConversationIncludableFileContentType`.  The two image
arms of the match are unreachable (the image guard above returns first); the
source marks the default arm `assertNever`. -/
def isConversationIncludableFileContentType
    (contentType : SupportedContentFragmentType) : Bool :=
  if isSupportedImageContentType contentType then false
  else
    match contentType with
    | SupportedContentFragmentType.application_msword => true
    | SupportedContentFragmentType.application_docx => true
    | SupportedContentFragmentType.application_pdf => true
    | SupportedContentFragmentType.text_markdown => true
    | SupportedContentFragmentType.text_plain => true
    | SupportedContentFragmentType.dust_application_slack => true
    | SupportedContentFragmentType.text_comma_separated_values => false
    | SupportedContentFragmentType.text_csv => false
    | SupportedContentFragmentType.text_tab_separated_values => false
    | SupportedContentFragmentType.text_tsv => false
    | SupportedContentFragmentType.image_jpeg => false
    | SupportedContentFragmentType.image_png => false

/-- Conversation message as seen by the render function: either a content
fragment (with its `fileId` and content type) or any other message kind
(for which `isContentFragmentType` is false). -/
inductive MessageM where
  | contentFragment (fileId : String) (contentType : SupportedContentFragmentType)
  | other
deriving DecidableEq

/-- One entry of the rendered content of a content fragment; `isTextContent`
holds exactly on the `text` constructor. -/
inductive ContentPiece where
  | text (t : String)
  | other
deriving DecidableEq

/-- Rendered content fragment (the `content` array). -/
structure RenderedContent where
  content : List ContentPiece
deriving DecidableEq

/-- Model configuration surface used by the render function. -/
structure ModelConfiguration where
  providerId : String
  modelId : String
  contextSize : Nat
deriving DecidableEq

/-- Function message returned to the model. -/
structure FunctionMessage where
  role : String
  name : String
  function_call_id : String
  content : String
deriving DecidableEq

/-- Relevant fields of a `ConversationIncludeFileAction`. -/
structure ConversationIncludeFileAction where
  id : Nat
  fileId : String
  functionCallId : Option String
  functionCallName : Option String
deriving DecidableEq

/-- Environment of `renderForMultiActionsModel`:
`renderContentFragmentForModel` (with `excludeImages: true`) and the core
API `tokenize` call (text, providerId, modelId). -/
structure IncludeEnv where
  renderContentFragmentForModel :
    MessageM → List (List MessageM) → ModelConfiguration → Except String RenderedContent
  tokenize : String → String → String → Except String (List Nat)

/-- Constant `CONTEXT_SIZE_DIVISOR_FOR_INCLUDE`. -/
def CONTEXT_SIZE_DIVISOR_FOR_INCLUDE : Nat := 4

/-- Embedding of `renderForMultiActionsModel`.  The conversation content is
the list of message versions (`flat(1)` is `List.join`).  The JavaScript
comparison `tokens.length > contextSize / 4` over real division coincides
with the `Nat` floor-division comparison used here, both being equivalent to
`4 * tokens.length > contextSize`. -/
def renderForMultiActionsModel (env : IncludeEnv)
    (action : ConversationIncludeFileAction)
    (conversation : List (List MessageM)) (model : ModelConfiguration) :
    FunctionMessage :=
  let finalize := fun (content : String) =>
    FunctionMessage.mk "function"
      (action.functionCallName.getD "include_conversation_file")
      (action.functionCallId.getD ("call_" ++ Zendesk.natToDecimal action.id))
      content
  match conversation.join.find? (fun m =>
      match m with
      | MessageM.contentFragment fId ct =>
        isConversationIncludableFileContentType ct && fId == action.fileId
      | MessageM.other => false) with
  | none =>
    finalize ("Error: " ++ ("File `" ++ action.fileId ++ "` not found in conversation"))
  | some m =>
    match env.renderContentFragmentForModel m conversation model with
    | Except.error e => finalize ("Error: " ++ e)
    | Except.ok rRes =>
      match rRes.content.head? with
      | some (ContentPiece.text text) =>
        match env.tokenize text model.providerId model.modelId with
        | Except.error e => finalize ("Error: " ++ e)
        | Except.ok tokens =>
          if tokens.length > model.contextSize / CONTEXT_SIZE_DIVISOR_FOR_INCLUDE then
            finalize ("Error: " ++ ("File `" ++ action.fileId ++
              "` has too many tokens to be included, use semantic search instead."))
          else finalize text
      | _ =>
        finalize ("Error: " ++ ("File `" ++ action.fileId ++ "` has no text content"))

end IncludeFile

namespace Uploader

/-!
Embedding of the `useFileUploaderService` hook (extension file-upload hook):
`handleFilesUpload`, `processSelectedFiles`, `uploadFiles`, `processResults`,
`createFileBlob`, `removeFile`, `resetUpload`.

React state is modelled explicitly: `UploaderState` carries the `fileBlobs`
state, the `isProcessingFiles` flag, the notifications sent so far, and the
log of upload calls issued to `dustAPI.uploadFile` (to observe whether an
upload was attempted).  Functional `setFileBlobs` updates are threaded in
order; reads of the `fileBlobs` closure variable inside one call use the
snapshot from the start of that call, as React guarantees.
-/

/-- Browser `File` surface: name, MIME type, size. -/
structure FileSpec where
  name : String
  type : String
  size : Nat
deriving DecidableEq

/-- Modelled from the spec: `isSupportedImageContentType` from
`@dust-tt/client` is not among the provided sources; the SDK schema in
`sdks/js/src/types.ts` lists the image content types as exactly
`image/jpeg` and `image/png`. -/
def isSupportedImageContentType (contentType : String) : Bool :=
  contentType == "image/jpeg" || contentType == "image/png"

/-- Modelled from the spec: `isSupportedFileContentType` from
`@dust-tt/client` is not among the provided sources; modelled as membership
in the SDK schema's supported content types. -/
def isSupportedFileContentType (contentType : String) : Bool :=
  ["application/msword",
   "application/vnd.openxmlformats-officedocument.wordprocessingml.document",
   "application/pdf", "text/comma-separated-values", "text/csv",
   "text/markdown", "text/plain", "text/tab-separated-values", "text/tsv",
   "image/jpeg", "image/png", "dust-application/slack"].contains contentType

/-- The `FileBlob` record of the hook. -/
structure FileBlob where
  contentType : String
  file : FileSpec
  filename : String
  id : String
  fileId : Option String
  isUploading : Bool
  preview : Option String
  size : Nat
  publicUrl : Option String
deriving DecidableEq

/-- Error codes of `FileBlobUploadError`. -/
inductive FileBlobUploadErrorCode where
  | failed_to_upload_file
  | file_type_not_supported
deriving DecidableEq

/-- The `FileBlobUploadError` class: code, offending file, message. -/
structure FileBlobUploadError where
  code : FileBlobUploadErrorCode
  file : FileSpec
  message : String
deriving DecidableEq

/-- A notification sent through `sendNotification`. -/
structure Notification where
  type : String
  title : String
  description : String
deriving DecidableEq

/-- Response of `dustAPI.uploadFile`. -/
structure FileUploadedResponse where
  id : String
  downloadUrl : String
  publicUrl : Option String
deriving DecidableEq

/-- Hook state. -/
structure UploaderState where
  fileBlobs : List FileBlob
  isProcessingFiles : Bool
  notifications : List Notification
  uploadCalls : List FileSpec
deriving DecidableEq

/-- Upload API environment: `dustAPI.uploadFile(contentType, fileName,
fileSize, useCase, fileObject)`, failing with an error message. -/
structure UploadEnv where
  uploadFile : String → String → Nat → String → FileSpec → Except String FileUploadedResponse

/-- Constant `MAX_FILE_SIZES.plainText` (30 MB). -/
def MAX_FILE_SIZES_plainText : Nat := 30 * 1024 * 1024

/-- Constant `MAX_FILE_SIZES.image` (5 MB). -/
def MAX_FILE_SIZES_image : Nat := 5 * 1024 * 1024

/-- Constant `COMBINED_MAX_TEXT_FILES_SIZE` (2 × 30 MB). -/
def COMBINED_MAX_TEXT_FILES_SIZE : Nat := MAX_FILE_SIZES_plainText * 2

/-- Constant `COMBINED_MAX_IMAGE_FILES_SIZE` (5 × 5 MB). -/
def COMBINED_MAX_IMAGE_FILES_SIZE : Nat := MAX_FILE_SIZES_image * 5

/-- Accumulator of the size `reduce` in `handleFilesUpload`. -/
structure SizeTotals where
  totalTextualSize : Nat
  totalImageSize : Nat
deriving DecidableEq

/-- One step of the size `reduce`: add `size` to the image bucket when the
content type is a supported image type, else to the textual bucket. -/
def addSize (acc : SizeTotals) (contentType : String) (size : Nat) : SizeTotals :=
  if isSupportedImageContentType contentType then
    SizeTotals.mk acc.totalTextualSize (acc.totalImageSize + size)
  else
    SizeTotals.mk (acc.totalTextualSize + size) acc.totalImageSize

/-- The size `reduce` over `[...fileBlobs, ...files]`: held blobs contribute
via their `contentType`, new files via their `type`. -/
def sizeTotals (blobs : List FileBlob) (files : List FileSpec) : SizeTotals :=
  files.foldl (fun acc f => addSize acc f.type f.size)
    (blobs.foldl (fun acc b => addSize acc b.contentType b.size) (SizeTotals.mk 0 0))

/-- Embedding of `createFileBlob`. -/
def createFileBlob (file : FileSpec) (contentType : String) (preview : Option String) :
    FileBlob :=
  FileBlob.mk contentType file file.name file.name none true preview file.size none

/-- One step of the `reduce` in `processSelectedFiles`, accumulating the
result list and the notifications it emits: a selected file whose name equals
the id of an already-held blob is skipped with a notification; an unsupported
content type produces an `Err`; otherwise an `Ok` preview blob. -/
def processSelectedFilesStep (heldBlobs : List FileBlob)
    (acc : List (Except FileBlobUploadError FileBlob) × List Notification)
    (file : FileSpec) :
    List (Except FileBlobUploadError FileBlob) × List Notification :=
  if heldBlobs.any (fun f => f.id == file.name) then
    (acc.1,
     acc.2 ++ [Notification.mk "error" "File already exists."
       ("File \"" ++ file.name ++ "\" is already uploaded.")])
  else
    let contentType := file.type
    if !(isSupportedFileContentType contentType) then
      (acc.1 ++ [Except.error (FileBlobUploadError.mk
          FileBlobUploadErrorCode.file_type_not_supported file
          ("File \"" ++ file.name ++ "\" is not supported."))],
       acc.2)
    else
      (acc.1 ++ [Except.ok (createFileBlob file contentType none)], acc.2)

/-- Embedding of `processSelectedFiles`; `heldBlobs` is the `fileBlobs`
closure snapshot.  Returns the result list and the emitted notifications. -/
def processSelectedFiles (heldBlobs : List FileBlob) (selectedFiles : List FileSpec) :
    List (Except FileBlobUploadError FileBlob) × List Notification :=
  selectedFiles.foldl (processSelectedFilesStep heldBlobs) ([], [])

/-- Embedding of `uploadFiles`: one `dustAPI.uploadFile` call per new blob. -/
def uploadFiles (env : UploadEnv) (newFileBlobs : List FileBlob) :
    List (Except FileBlobUploadError FileBlob) :=
  newFileBlobs.map (fun fileBlob =>
    match env.uploadFile fileBlob.contentType fileBlob.filename fileBlob.size
        "conversation" fileBlob.file with
    | Except.error msg =>
      Except.error (FileBlobUploadError.mk
        FileBlobUploadErrorCode.failed_to_upload_file fileBlob.file msg)
    | Except.ok fileUploaded =>
      Except.ok (FileBlob.mk fileBlob.contentType fileBlob.file fileBlob.filename
        fileBlob.id (some fileUploaded.id) false
        (if isSupportedImageContentType fileBlob.contentType then
          some (fileUploaded.downloadUrl ++ "?action=view")
        else none)
        fileBlob.size fileUploaded.publicUrl))

/-- JavaScript `Map.set` on an insertion-ordered association list: an existing
key keeps its position and gets the new value, a new key is appended. -/
def mapSet (m : List (String × FileBlob)) (k : String) (v : FileBlob) :
    List (String × FileBlob) :=
  if m.any (fun p => p.1 == k) then
    m.map (fun p => if p.1 == k then (k, v) else p)
  else m ++ [(k, v)]

/-- JavaScript `new Map(entries)`: later entries overwrite earlier ones. -/
def mapFromEntries (entries : List (String × FileBlob)) : List (String × FileBlob) :=
  entries.foldl (fun m p => mapSet m p.1 p.2) []

/-- Embedding of `processResults` applied to the current `fileBlobs` state
`prevFiles`: returns the successful blobs, the emitted notifications, and the
new `fileBlobs` state after the two functional `setFileBlobs` updates (the
filter of errored blobs, then the `Map`-based merge of successful ones),
which only run when `updateBlobs` is true. -/
def processResults (results : List (Except FileBlobUploadError FileBlob))
    (updateBlobs : Bool) (prevFiles : List FileBlob) :
    List FileBlob × List Notification × List FileBlob :=
  let successfulBlobs := results.filterMap (fun r =>
    match r with
    | Except.ok b => some b
    | Except.error _ => none)
  let erroredBlobs := results.filterMap (fun r =>
    match r with
    | Except.ok _ => none
    | Except.error e => some e)
  let notifs := erroredBlobs.map (fun e =>
    Notification.mk "error" "Failed to upload file." e.message)
  let files1 :=
    if updateBlobs && decide (erroredBlobs.length > 0) then
      prevFiles.filter (fun f => !(erroredBlobs.any (fun e => e.file.name == f.id)))
    else prevFiles
  let files2 :=
    if updateBlobs && decide (successfulBlobs.length > 0) then
      (successfulBlobs.foldl (fun m blob => mapSet m blob.id blob)
        (mapFromEntries (files1.map (fun blob => (blob.id, blob))))).map (fun p => p.2)
    else files1
  (successfulBlobs, notifs, files2)

/-- Embedding of `handleFilesUpload`.  The guard (combined sizes over the
limits) notifies and returns `undefined` without resetting
`isProcessingFiles`; otherwise the preview blobs are produced, uploaded, and
the results folded into the state.  `updateBlobs?` is the optional second
argument; `processResults` defaults it to true. -/
def handleFilesUpload (env : UploadEnv) (st : UploaderState) (files : List FileSpec)
    (updateBlobs? : Option Bool) : UploaderState × Option (List FileBlob) :=
  let st0 := UploaderState.mk st.fileBlobs true st.notifications st.uploadCalls
  let totals := sizeTotals st.fileBlobs files
  if totals.totalTextualSize > COMBINED_MAX_TEXT_FILES_SIZE ||
      totals.totalImageSize > COMBINED_MAX_IMAGE_FILES_SIZE then
    (UploaderState.mk st0.fileBlobs st0.isProcessingFiles
      (st0.notifications ++
        [Notification.mk "error" "Files too large."
          "Combined file sizes exceed the limits. Please upload smaller files."])
      st0.uploadCalls,
     none)
  else
    let updateBlobs := updateBlobs?.getD true
    let pre := processSelectedFiles st.fileBlobs files
    let st1 := UploaderState.mk st0.fileBlobs st0.isProcessingFiles
      (st0.notifications ++ pre.2) st0.uploadCalls
    let pr1 := processResults pre.1 updateBlobs st1.fileBlobs
    let newFileBlobs := pr1.1
    let st2 := UploaderState.mk pr1.2.2 st1.isProcessingFiles
      (st1.notifications ++ pr1.2.1) st1.uploadCalls
    let uploadResults := uploadFiles env newFileBlobs
    let st3 := UploaderState.mk st2.fileBlobs st2.isProcessingFiles st2.notifications
      (st2.uploadCalls ++ newFileBlobs.map (fun b => b.file))
    let pr2 := processResults uploadResults updateBlobs st3.fileBlobs
    let finalFileBlobs := pr2.1
    let st4 := UploaderState.mk pr2.2.2 false (st3.notifications ++ pr2.2.1)
      st3.uploadCalls
    (st4, some finalFileBlobs)

/-- Embedding of `removeFile`. -/
def removeFile (st : UploaderState) (fileId : String) : UploaderState :=
  match st.fileBlobs.find? (fun f => f.id == fileId) with
  | none => st
  | some fileBlob =>
    let blobs2 := st.fileBlobs.filter (fun f => !(f.fileId == fileBlob.fileId))
    let allFilesReady := st.fileBlobs.all (fun f => f.isUploading == false)
    UploaderState.mk blobs2
      (if allFilesReady && st.isProcessingFiles then false else st.isProcessingFiles)
      st.notifications st.uploadCalls

/-- Embedding of `resetUpload`. -/
def resetUpload (st : UploaderState) : UploaderState :=
  UploaderState.mk [] st.isProcessingFiles st.notifications st.uploadCalls

/-- One user-visible operation on the hook. -/
inductive UploaderOp where
  | upload (env : UploadEnv) (files : List FileSpec) (updateBlobs? : Option Bool)
  | remove (fileId : String)
  | reset

/-- Apply one operation to the state. -/
def applyOp (st : UploaderState) : UploaderOp → UploaderState
  | UploaderOp.upload env files updateBlobs? => (handleFilesUpload env st files updateBlobs?).1
  | UploaderOp.remove fileId => removeFile st fileId
  | UploaderOp.reset => resetUpload st

/-- Initial hook state: `useState<FileBlob[]>([])` and friends. -/
def initialState : UploaderState := UploaderState.mk [] false [] []

/-- Run a sequence of operations from the initial state. -/
def runOps (ops : List UploaderOp) : UploaderState := ops.foldl applyOp initialState

end Uploader

namespace Plans

/-!
Embedding of the subscription management of `front/lib/plans/subscription.ts`:
`renderPlanFromModel`, `renderSubscriptionFromModels`,
`internalSubscribeWorkspaceToFreeNoPlan`,
`internalSubscribeWorkspaceToFreeTestPlan`,
`internalSubscribeWorkspaceToFreeUpgradedPlan` and
`downgradeWorkspaceToFreePlan`.

The database is an explicit state (workspace, plan and subscription rows plus
the next fresh subscription primary key); `new Date()` timestamps are `Nat`,
and the random `generateModelSId` value is passed in as `newSId`.
-/

/-- The `PlanAttributes` column set. -/
structure PlanAttributes where
  code : String
  name : String
  stripeProductId : Option String
  billingType : String
  isSlackbotAllowed : Bool
  maxMessages : Int
  isManagedConfluenceAllowed : Bool
  isManagedSlackAllowed : Bool
  isManagedNotionAllowed : Bool
  isManagedGoogleDriveAllowed : Bool
  isManagedGithubAllowed : Bool
  isManagedIntercomAllowed : Bool
  isManagedWebCrawlerAllowed : Bool
  maxDataSourcesCount : Int
  maxDataSourcesDocumentsCount : Int
  maxDataSourcesDocumentsSizeMb : Int
  maxUsersInWorkspace : Int
  canUseProduct : Bool
  trialPeriodDays : Int
deriving DecidableEq

/-- A `Plan` table row. -/
structure PlanRow extends PlanAttributes where
  id : Nat
deriving DecidableEq

/-- A `Workspace` table row (relevant columns). -/
structure WorkspaceRow where
  id : Nat
  sId : String
deriving DecidableEq

/-- A `Subscription` table row (relevant columns). -/
structure SubscriptionRow where
  id : Nat
  sId : String
  workspaceId : Nat
  planId : Nat
  status : String
  startDate : Option Nat
  endDate : Option Nat
  stripeCustomerId : Option String
  stripeSubscriptionId : Option String
  paymentFailingSince : Option Nat
deriving DecidableEq

/-- Database state; `nextSubId` is the next fresh subscription primary key. -/
structure DBState where
  workspaces : List WorkspaceRow
  plans : List PlanRow
  subscriptions : List SubscriptionRow
  nextSubId : Nat
deriving DecidableEq

/-- Rendered `limits.assistant`. -/
structure AssistantLimits where
  isSlackBotAllowed : Bool
  maxMessages : Int
deriving DecidableEq

/-- Rendered `limits.connections`. -/
structure ConnectionsLimits where
  isConfluenceAllowed : Bool
  isSlackAllowed : Bool
  isNotionAllowed : Bool
  isGoogleDriveAllowed : Bool
  isGithubAllowed : Bool
  isIntercomAllowed : Bool
  isWebCrawlerAllowed : Bool
deriving DecidableEq

/-- Rendered `limits.dataSources.documents`. -/
structure DocumentsLimits where
  count : Int
  sizeMb : Int
deriving DecidableEq

/-- Rendered `limits.dataSources`. -/
structure DataSourcesLimits where
  count : Int
  documents : DocumentsLimits
deriving DecidableEq

/-- Rendered `limits.users`. -/
structure UsersLimits where
  maxUsers : Int
deriving DecidableEq

/-- Rendered `limits`. -/
structure PlanLimits where
  assistant : AssistantLimits
  connections : ConnectionsLimits
  dataSources : DataSourcesLimits
  users : UsersLimits
  canUseProduct : Bool
deriving DecidableEq

/-- Rendered `PlanType`. -/
structure PlanType where
  code : String
  name : String
  stripeProductId : Option String
  billingType : String
  limits : PlanLimits
  trialPeriodDays : Int
deriving DecidableEq

/-- Embedding of `renderPlanFromModel`. -/
def renderPlanFromModel (plan : PlanAttributes) : PlanType :=
  PlanType.mk plan.code plan.name plan.stripeProductId plan.billingType
    (PlanLimits.mk
      (AssistantLimits.mk plan.isSlackbotAllowed plan.maxMessages)
      (ConnectionsLimits.mk plan.isManagedConfluenceAllowed plan.isManagedSlackAllowed
        plan.isManagedNotionAllowed plan.isManagedGoogleDriveAllowed
        plan.isManagedGithubAllowed plan.isManagedIntercomAllowed
        plan.isManagedWebCrawlerAllowed)
      (DataSourcesLimits.mk plan.maxDataSourcesCount
        (DocumentsLimits.mk plan.maxDataSourcesDocumentsCount
          plan.maxDataSourcesDocumentsSizeMb))
      (UsersLimits.mk plan.maxUsersInWorkspace)
      plan.canUseProduct)
    plan.trialPeriodDays

/-- Rendered `SubscriptionType`. -/
structure SubscriptionType where
  status : String
  sId : Option String
  stripeSubscriptionId : Option String
  stripeCustomerId : Option String
  startDate : Option Nat
  endDate : Option Nat
  paymentFailingSince : Option Nat
  plan : PlanType
deriving DecidableEq

/-- JavaScript `x || null` on an optional string: the empty string is falsy
and becomes null. -/
def jsOrNullStr : Option String → Option String
  | some s => if s = "" then none else some s
  | none => none

/-- JavaScript `x?.getTime() || null` on an optional timestamp: the epoch
timestamp 0 is falsy and becomes null. -/
def jsOrNullNat : Option Nat → Option Nat
  | some n => if n = 0 then none else some n
  | none => none

/-- Embedding of `renderSubscriptionFromModels`. -/
def renderSubscriptionFromModels (plan : PlanAttributes)
    (activeSubscription : Option SubscriptionRow) : SubscriptionType :=
  SubscriptionType.mk
    ((activeSubscription.map (fun s => s.status)).getD "active")
    (jsOrNullStr (activeSubscription.map (fun s => s.sId)))
    (jsOrNullStr (activeSubscription.bind (fun s => s.stripeSubscriptionId)))
    (jsOrNullStr (activeSubscription.bind (fun s => s.stripeCustomerId)))
    (jsOrNullNat (activeSubscription.bind (fun s => s.startDate)))
    (jsOrNullNat (activeSubscription.bind (fun s => s.endDate)))
    (jsOrNullNat (activeSubscription.bind (fun s => s.paymentFailingSince)))
    (renderPlanFromModel plan)

/-- Modelled from the spec: the plan-code constants live in
`front/lib/plans/plan_codes.ts`, which is not among the provided sources; the
claims depend only on their identity, not their concrete value. -/
def FREE_TEST_PLAN_CODE : String := "FREE_TEST_PLAN"

/-- Modelled from the spec: see `FREE_TEST_PLAN_CODE`. -/
def FREE_UPGRADED_PLAN_CODE : String := "FREE_UPGRADED_PLAN"

/-- `Workspace.findOne({where: {sId}})`. -/
def findWorkspace (st : DBState) (workspaceId : String) : Option WorkspaceRow :=
  st.workspaces.find? (fun w => w.sId == workspaceId)

/-- `Plan.findOne({where: {code}})`. -/
def findPlanByCode (st : DBState) (code : String) : Option PlanRow :=
  st.plans.find? (fun p => p.code == code)

/-- `Subscription.findOne({where: {workspaceId, status: "active"}})`. -/
def findActiveSubscription (st : DBState) (workspaceId : Nat) : Option SubscriptionRow :=
  st.subscriptions.find? (fun s => s.workspaceId == workspaceId && s.status == "active")

/-- The row after `activeSubscription.update({status: "ended", endDate: now})`. -/
def endedRow (s : SubscriptionRow) (now : Nat) : SubscriptionRow :=
  SubscriptionRow.mk s.id s.sId s.workspaceId s.planId "ended" s.startDate (some now)
    s.stripeCustomerId s.stripeSubscriptionId s.paymentFailingSince

/-- Apply the `update` of the active subscription to the table. -/
def endSubscription (st : DBState) (subId : Nat) (now : Nat) : DBState :=
  DBState.mk st.workspaces st.plans
    (st.subscriptions.map (fun s => if s.id == subId then endedRow s now else s))
    st.nextSubId

/-- Embedding of `internalSubscribeWorkspaceToFreeNoPlan`.  `freeNoPlanData`
is the `FREE_NO_PLAN_DATA` constant (from `front/lib/plans/free_plans.ts`,
not among the provided sources), passed as a parameter. -/
def internalSubscribeWorkspaceToFreeNoPlan (st : DBState)
    (freeNoPlanData : PlanAttributes) (workspaceId : String) (now : Nat) :
    Except String (DBState × SubscriptionType) :=
  match findWorkspace st workspaceId with
  | none => Except.error ("Cannot find workspace " ++ workspaceId)
  | some workspace =>
    let st1 :=
      match findActiveSubscription st workspace.id with
      | some a => endSubscription st a.id now
      | none => st
    Except.ok (st1, renderSubscriptionFromModels freeNoPlanData none)

/-- Embedding of `internalSubscribeWorkspaceToFreeTestPlan`. -/
def internalSubscribeWorkspaceToFreeTestPlan (st : DBState) (workspaceId : String)
    (now : Nat) (newSId : String) : Except String (DBState × SubscriptionType) :=
  match findWorkspace st workspaceId with
  | none => Except.error ("Cannot find workspace " ++ workspaceId)
  | some workspace =>
    match findPlanByCode st FREE_TEST_PLAN_CODE with
    | none =>
      Except.error ("Cannot subscribe to plan " ++ FREE_TEST_PLAN_CODE ++ ":  not found.")
    | some plan =>
      let activeSubscription := findActiveSubscription st workspace.id
      let st1 :=
        match activeSubscription with
        | some a => endSubscription st a.id now
        | none => st
      let newSubscription := SubscriptionRow.mk st.nextSubId newSId workspace.id plan.id
        "active" (some now) none
        (jsOrNullStr (activeSubscription.bind (fun s => s.stripeCustomerId))) none none
      let st2 := DBState.mk st1.workspaces st1.plans
        (st1.subscriptions ++ [newSubscription]) (st1.nextSubId + 1)
      Except.ok (st2, renderSubscriptionFromModels plan.toPlanAttributes (some newSubscription))

/-- Embedding of `internalSubscribeWorkspaceToFreeUpgradedPlan` (with its
`planCode` argument, defaulted to `FREE_UPGRADED_PLAN_CODE` at call sites). -/
def internalSubscribeWorkspaceToFreeUpgradedPlan (st : DBState) (workspaceId : String)
    (planCode : String) (now : Nat) (newSId : String) :
    Except String (DBState × SubscriptionType) :=
  match findWorkspace st workspaceId with
  | none => Except.error ("Cannot find workspace " ++ workspaceId)
  | some workspace =>
    match findPlanByCode st planCode with
    | none => Except.error ("Cannot subscribe to plan " ++ planCode ++ ":  not found.")
    | some plan =>
      let activeSubscription := findActiveSubscription st workspace.id
      if (match activeSubscription with
          | some a => a.planId == plan.id
          | none => false) then
        Except.error ("Cannot subscribe to plan " ++ planCode ++ ": already subscribed.")
      else
        let st1 :=
          match activeSubscription with
          | some a => endSubscription st a.id now
          | none => st
        let newSubscription := SubscriptionRow.mk st.nextSubId newSId workspace.id plan.id
          "active" (some now) none
          (jsOrNullStr (activeSubscription.bind (fun s => s.stripeCustomerId))) none none
        let st2 := DBState.mk st1.workspaces st1.plans
          (st1.subscriptions ++ [newSubscription]) (st1.nextSubId + 1)
        Except.ok (st2,
          renderSubscriptionFromModels plan.toPlanAttributes (some newSubscription))

/-- The `auth.workspace()` owner surface used by `downgradeWorkspaceToFreePlan`. -/
structure WorkspaceRef where
  sId : String
deriving DecidableEq

/-- Authenticator surface of `downgradeWorkspaceToFreePlan`: `user()`,
`workspace()`, `plan()`, `isAdmin()` and `subscription()`. -/
structure Auth where
  hasUser : Bool
  workspace : Option WorkspaceRef
  hasPlan : Bool
  isAdmin : Bool
  subscription : Option SubscriptionType
deriving DecidableEq

/-- JavaScript truthiness of an optional string (`if (x)`): null and the
empty string are falsy. -/
def jsTruthyOptStr : Option String → Bool
  | some s => !(s == "")
  | none => false

/-- Embedding of `downgradeWorkspaceToFreePlan`. -/
def downgradeWorkspaceToFreePlan (st : DBState) (auth : Auth) (now : Nat)
    (newSId : String) : Except String (DBState × PlanType) :=
  match auth.workspace with
  | none =>
    Except.error "Unauthorized `auth` data: cannot process to subscription of new Plan."
  | some owner =>
    if !auth.hasUser || !auth.isAdmin || !auth.hasPlan then
      Except.error "Unauthorized `auth` data: cannot process to subscription of new Plan."
    else
      match findPlanByCode st FREE_TEST_PLAN_CODE with
      | none =>
        Except.error ("Cannot downgrade to free plan " ++ FREE_TEST_PLAN_CODE ++
          ": not found.")
      | some freeTestPlan =>
        if jsTruthyOptStr freeTestPlan.stripeProductId then
          Except.error ("Cannot downgrade to free plan " ++ FREE_TEST_PLAN_CODE ++
            ": has a Stripe Product ID.")
        else if freeTestPlan.billingType != "free" then
          Except.error ("Cannot downgrade to free plan " ++ FREE_TEST_PLAN_CODE ++
            ": billingType is not \"free\".")
        else
          if (match auth.subscription with
              | some existingSubscription =>
                existingSubscription.plan.code == freeTestPlan.code
              | none => false) then
            Except.error ("Cannot downgrade to free plan " ++ FREE_TEST_PLAN_CODE ++
              ": already subscribed.")
          else
            match internalSubscribeWorkspaceToFreeTestPlan st owner.sId now newSId with
            | Except.error e => Except.error e
            | Except.ok (st2, sub) => Except.ok (st2, sub.plan)

/-- Active subscriptions of a workspace. -/
def activeSubsFor (st : DBState) (workspaceId : Nat) : List SubscriptionRow :=
  st.subscriptions.filter (fun s => s.workspaceId == workspaceId && s.status == "active")

/-- Concrete free-test plan row used by counterexamples. -/
def cexPlanRow : PlanRow :=
  PlanRow.mk (PlanAttributes.mk "FREE_TEST_PLAN" "Free test" none "free"
    false 50 false false false false false false false 5 100 2 1 true 0) 1

/-- Concrete database state used by the C3 counterexample: one workspace,
the free-test plan, and one active subscription whose `stripeCustomerId` is
the empty string. -/
def cexState : DBState :=
  DBState.mk [WorkspaceRow.mk 1 "w"] [cexPlanRow]
    [SubscriptionRow.mk 1 "s0" 1 1 "active" (some 1) none (some "") none none] 2

/-- Concrete database state used by the C7 counterexample: one workspace and
an empty `Plan` table. -/
def cexStateNoPlan : DBState :=
  DBState.mk [WorkspaceRow.mk 1 "w"] [] [] 1

/-- Concrete authenticator used by the C7 counterexample. -/
def cexAuth : Auth :=
  Auth.mk true (some (WorkspaceRef.mk "w")) true true none

/-- Concrete state after the C3 witness call on `cexState`. -/
def cexStateAfter : DBState :=
  DBState.mk [WorkspaceRow.mk 1 "w"] [cexPlanRow]
    [SubscriptionRow.mk 1 "s0" 1 1 "ended" (some 1) (some 5) (some "") none none,
     SubscriptionRow.mk 2 "s1" 1 1 "active" (some 5) none none none none] 3

/-- Concrete rendered subscription returned by the C3 witness call. -/
def cexSubTAfter : SubscriptionType :=
  renderSubscriptionFromModels cexPlanRow.toPlanAttributes
    (some (SubscriptionRow.mk 2 "s1" 1 1 "active" (some 5) none none none none))

end Plans

namespace Zendesk

theorem natToDecimalCore_fuel (fuel fuel' n : Nat) (acc : List Char)
    (h : n < fuel) (h' : n < fuel') :
    natToDecimalCore fuel n acc = natToDecimalCore fuel' n acc := by
  induction fuel generalizing fuel' n acc with
  | zero => omega
  | succ f ih =>
    cases fuel' with
    | zero => omega
    | succ f' =>
      simp only [natToDecimalCore]
      by_cases h10 : n < 10
      · simp [h10]
      · rw [if_neg h10, if_neg h10]
        exact ih f' (n / 10) _ (by omega) (by omega)

theorem natDigits_lt10 (n : Nat) (h : n < 10) : natDigits n = [Nat.digitChar n] := by
  simp [natDigits, natToDecimalCore, h]

theorem natToDecimalCore_eq (n : Nat) (acc : List Char) :
    natToDecimalCore (n + 1) n acc = natDigits n ++ acc := by
  induction n using Nat.strong_induction_on generalizing acc with
  | _ n ih =>
    by_cases h10 : n < 10
    · simp [natDigits, natToDecimalCore, h10]
    · have hstep : ∀ ac : List Char, natToDecimalCore (n + 1) n ac
          = natToDecimalCore (n / 10 + 1) (n / 10) (Nat.digitChar (n % 10) :: ac) := by
        intro ac
        have h1 : natToDecimalCore (n + 1) n ac
            = natToDecimalCore n (n / 10) (Nat.digitChar (n % 10) :: ac) := by
          simp [natToDecimalCore, h10]
        rw [h1]
        exact natToDecimalCore_fuel n (n / 10 + 1) (n / 10) _ (by omega) (by omega)
      have hn : natDigits n = natDigits (n / 10) ++ [Nat.digitChar (n % 10)] := by
        rw [natDigits, hstep [], ih (n / 10) (by omega) _]
      rw [hstep acc, ih (n / 10) (by omega) _, hn, List.append_assoc]
      rfl

theorem natDigits_ge10 (n : Nat) (h10 : ¬ n < 10) :
    natDigits n = natDigits (n / 10) ++ [Nat.digitChar (n % 10)] := by
  have h1 : natDigits n = natToDecimalCore n (n / 10) [Nat.digitChar (n % 10)] := by
    simp [natDigits, natToDecimalCore, h10]
  rw [h1, natToDecimalCore_fuel n (n / 10 + 1) (n / 10) _ (by omega) (by omega),
    natToDecimalCore_eq]

theorem natDigits_ne_nil (n : Nat) : natDigits n ≠ [] := by
  by_cases h10 : n < 10
  · rw [natDigits_lt10 n h10]; simp
  · rw [natDigits_ge10 n h10]; simp

theorem digitChar_isDigit (d : Nat) (h : d < 10) : (Nat.digitChar d).isDigit = true := by
  interval_cases d <;> decide

theorem digitChar_toNat (d : Nat) (h : d < 10) : (Nat.digitChar d).toNat - 48 = d := by
  interval_cases d <;> decide

theorem natDigits_all_digit (n : Nat) : ∀ c ∈ natDigits n, c.isDigit = true := by
  induction n using Nat.strong_induction_on with
  | _ n ih =>
    by_cases h10 : n < 10
    · rw [natDigits_lt10 n h10]
      intro c hc
      simp only [List.mem_singleton] at hc
      subst hc
      exact digitChar_isDigit n h10
    · rw [natDigits_ge10 n h10]
      intro c hc
      rcases List.mem_append.mp hc with h | h
      · exact ih (n / 10) (by omega) c h
      · simp only [List.mem_singleton] at h
        subst h
        exact digitChar_isDigit (n % 10) (by omega)

theorem parseDigits_append (l₁ l₂ : List Char) (v : Nat)
    (h : ∀ c ∈ l₁, c.isDigit = true) :
    parseDigits (l₁ ++ l₂) v = parseDigits l₂ (parseDigits l₁ v) := by
  induction l₁ generalizing v with
  | nil => simp [parseDigits]
  | cons c cs ih =>
    have hc : c.isDigit = true := h c (by simp)
    simp only [List.cons_append, parseDigits, hc, if_true]
    exact ih _ (fun x hx => h x (by simp [hx]))

theorem parseDigits_natDigits (n : Nat) : parseDigits (natDigits n) 0 = n := by
  induction n using Nat.strong_induction_on with
  | _ n ih =>
    by_cases h10 : n < 10
    · rw [natDigits_lt10 n h10]
      simp [parseDigits, digitChar_isDigit n h10, digitChar_toNat n h10]
    · rw [natDigits_ge10 n h10, parseDigits_append _ _ _ (natDigits_all_digit _),
        ih (n / 10) (by omega)]
      simp only [parseDigits, digitChar_isDigit (n % 10) (by omega), if_true,
        digitChar_toNat (n % 10) (by omega)]
      omega

theorem jsParseInt_natToDecimal (n : Nat) : jsParseInt (natToDecimal n) = some n := by
  cases hnd : natDigits n with
  | nil => exact absurd hnd (natDigits_ne_nil n)
  | cons c cs =>
    have hcd : c.isDigit = true := natDigits_all_digit n c (by rw [hnd]; simp)
    have h1 : jsParseInt (natToDecimal n) = jsParseInt ⟨c :: cs⟩ := by
      rw [natToDecimal, hnd]
    rw [h1]
    show (if c.isDigit then some (parseDigits (c :: cs) 0) else none) = some n
    rw [if_pos hcd, ← hnd, parseDigits_natDigits]

theorem replaceFirstAux_of_prefix (l pat : List Char) (h : pat.isPrefixOf l = true) :
    replaceFirstAux l pat = l.drop pat.length := by
  cases l with
  | nil =>
    have hp : pat = [] := by
      rw [List.isPrefixOf_iff_prefix] at h
      simpa using h
    subst hp
    rfl
  | cons c cs => simp [replaceFirstAux, h]

theorem getIdFromInternal_roundtrip (pfx : String) (n : Nat) :
    _getIdFromInternal (pfx ++ natToDecimal n) pfx = some n := by
  have hdata : (pfx ++ natToDecimal n).data = pfx.data ++ (natToDecimal n).data :=
    String.data_append _ _
  have hpre : pfx.data.isPrefixOf ((pfx ++ natToDecimal n).data) = true := by
    rw [hdata, List.isPrefixOf_iff_prefix]
    exact List.prefix_append _ _
  have hrepl : replaceFirst (pfx ++ natToDecimal n) pfx = natToDecimal n := by
    rw [replaceFirst, replaceFirstAux_of_prefix _ _ hpre, hdata, List.drop_left]
  rw [_getIdFromInternal, jsStartsWith, if_pos hpre, hrepl, jsParseInt_natToDecimal]

end Zendesk

namespace Zendesk

/-- C8: for every connectorId and every nonnegative id, the Zendesk internal-id
conversions round-trip (`getBrandIdFromInternalId (getBrandInternalId id) = id`,
and likewise for the category, article, and ticket pairs), and each
`getXIdFromInternalId` returns `none` on every string that does not start with
its own type's prefix for that connectorId (each parser's null clause is
quantified over all strings separately, so it also covers strings bearing
another kind's prefix). -/
theorem claim_C8_zendesk_id_roundtrip (connectorId i : Nat) :
    getBrandIdFromInternalId connectorId (getBrandInternalId connectorId i) = some i ∧
    getCategoryIdFromInternalId connectorId (getCategoryInternalId connectorId i) = some i ∧
    getArticleIdFromInternalId connectorId (getArticleInternalId connectorId i) = some i ∧
    getTicketIdFromInternalId connectorId (getTicketInternalId connectorId i) = some i ∧
    (∀ s : String,
      jsStartsWith s ("zendesk-brand-" ++ natToDecimal connectorId ++ "-") = false →
      getBrandIdFromInternalId connectorId s = none) ∧
    (∀ s : String,
      jsStartsWith s ("zendesk-category-" ++ natToDecimal connectorId ++ "-") = false →
      getCategoryIdFromInternalId connectorId s = none) ∧
    (∀ s : String,
      jsStartsWith s ("zendesk-article-" ++ natToDecimal connectorId ++ "-") = false →
      getArticleIdFromInternalId connectorId s = none) ∧
    (∀ s : String,
      jsStartsWith s ("zendesk-ticket-" ++ natToDecimal connectorId ++ "-") = false →
      getTicketIdFromInternalId connectorId s = none) := by
  refine ⟨getIdFromInternal_roundtrip _ i, getIdFromInternal_roundtrip _ i,
    getIdFromInternal_roundtrip _ i, getIdFromInternal_roundtrip _ i, ?_, ?_, ?_, ?_⟩
  · intro s hb
    simp [getBrandIdFromInternalId, _getIdFromInternal, hb]
  · intro s hc
    simp [getCategoryIdFromInternalId, _getIdFromInternal, hc]
  · intro s ha
    simp [getArticleIdFromInternalId, _getIdFromInternal, ha]
  · intro s ht
    simp [getTicketIdFromInternalId, _getIdFromInternal, ht]

/-- Witness for C8 at connectorId 7 and id 42, discharging each parser's
non-prefix hypothesis, including a cross-kind case: the category parser on a
brand internal id. -/
theorem claim_C8_zendesk_id_roundtrip_witness :
    getBrandIdFromInternalId 7 (getBrandInternalId 7 42) = some 42 ∧
    getCategoryIdFromInternalId 7 (getCategoryInternalId 7 42) = some 42 ∧
    getArticleIdFromInternalId 7 (getArticleInternalId 7 42) = some 42 ∧
    getTicketIdFromInternalId 7 (getTicketInternalId 7 42) = some 42 ∧
    getBrandIdFromInternalId 7 (getTicketInternalId 7 42) = none ∧
    getCategoryIdFromInternalId 7 (getBrandInternalId 7 42) = none ∧
    getArticleIdFromInternalId 7 "nope" = none ∧
    getTicketIdFromInternalId 7 (getTicketsInternalId 7) = none :=
  ⟨(claim_C8_zendesk_id_roundtrip 7 42).1,
   (claim_C8_zendesk_id_roundtrip 7 42).2.1,
   (claim_C8_zendesk_id_roundtrip 7 42).2.2.1,
   (claim_C8_zendesk_id_roundtrip 7 42).2.2.2.1,
   (claim_C8_zendesk_id_roundtrip 7 42).2.2.2.2.1 (getTicketInternalId 7 42) (by decide),
   (claim_C8_zendesk_id_roundtrip 7 42).2.2.2.2.2.1 (getBrandInternalId 7 42) (by decide),
   (claim_C8_zendesk_id_roundtrip 7 42).2.2.2.2.2.2.1 "nope" (by decide),
   (claim_C8_zendesk_id_roundtrip 7 42).2.2.2.2.2.2.2 (getTicketsInternalId 7) (by decide)⟩

/-- C9: evaluation of the code at the failing input.  The claim states that
`getConversationInternalId` output is never parsed as a category id; but the
source builds the conversation internal id with the `zendesk-category-` prefix
(a copy-paste of `getCategoryInternalId`), so for connectorId 1 and
conversationId 5 the category parser returns `some 5` instead of `none`. -/
theorem claim_C9_conversation_category_collision :
    getCategoryIdFromInternalId 1 (getConversationInternalId 1 5) = some 5 := by
  decide

end Zendesk

namespace AuthWrap

/-- C1: for every request to a route wrapped by
`withSessionAuthenticationForWorkspace`: without a session the response is 401
`not_authenticated`; with a `wId` query value that is absent or not a string,
or with the resolved workspace/plan/user missing, the response has status 404;
with an authenticated user who is not a member of the workspace while
`allowUserOutsideCurrentWorkspace` is false, the response is 401
`workspace_auth_error`; and the wrapped handler runs only when none of these
cases applies (so it is never invoked in any of them, for every handler). -/
theorem claim_C1_session_workspace_wrapper {S T : Type}
    (fromSession : S → String → Authenticator)
    (handler : Authenticator → S → Outcome T)
    (allow : Bool) (wId? : Option QueryVal) (session? : Option S) :
    (session? = none →
      withSessionAuthenticationForWorkspace fromSession handler allow wId? session? =
        Outcome.apiError 401 "not_authenticated"
          "The user does not have an active session or is not authenticated.") ∧
    (∀ session, session? = some session →
      (∀ s, wId? ≠ some (QueryVal.str s)) →
      (withSessionAuthenticationForWorkspace fromSession handler allow wId? session?).status?
        = some 404) ∧
    (∀ session wId, session? = some session → wId? = some (QueryVal.str wId) → wId ≠ "" →
      ¬((fromSession session wId).hasWorkspace = true ∧
        (fromSession session wId).hasPlan = true ∧
        (fromSession session wId).hasUser = true) →
      (withSessionAuthenticationForWorkspace fromSession handler allow wId? session?).status?
        = some 404) ∧
    (∀ session wId, session? = some session → wId? = some (QueryVal.str wId) → wId ≠ "" →
      (fromSession session wId).hasWorkspace = true →
      (fromSession session wId).hasPlan = true →
      (fromSession session wId).hasUser = true →
      (fromSession session wId).isUser = false → allow = false →
      withSessionAuthenticationForWorkspace fromSession handler allow wId? session? =
        Outcome.apiError 401 "workspace_auth_error"
          "Only users of the workspace can access this route.") ∧
    (∀ t, withSessionAuthenticationForWorkspace fromSession handler allow wId? session?
        = Outcome.handled t →
      ∃ session wId, session? = some session ∧ wId? = some (QueryVal.str wId) ∧ wId ≠ "" ∧
        (fromSession session wId).hasWorkspace = true ∧
        (fromSession session wId).hasPlan = true ∧
        (fromSession session wId).hasUser = true ∧
        ((fromSession session wId).isUser = true ∨ allow = true)) := by
  refine ⟨?_, ?_, ?_, ?_, ?_⟩
  · intro h
    subst h
    rfl
  · intro session hs hns
    subst hs
    cases wId? with
    | none => rfl
    | some v =>
      cases v with
      | str s => exact absurd rfl (hns s)
      | arr l => rfl
  · intro session wId hs hw hne hmiss
    subst hs
    subst hw
    cases h1 : (fromSession session wId).hasWorkspace with
    | false =>
      simp [withSessionAuthenticationForWorkspace, withSessionAuthentication, hne, h1,
        Outcome.status?]
    | true =>
      cases h2 : (fromSession session wId).hasPlan with
      | false =>
        simp [withSessionAuthenticationForWorkspace, withSessionAuthentication, hne, h1, h2,
          Outcome.status?]
      | true =>
        cases h3 : (fromSession session wId).hasUser with
        | false =>
          simp [withSessionAuthenticationForWorkspace, withSessionAuthentication, hne,
            h1, h2, h3, Outcome.status?]
        | true => exact absurd ⟨h1, h2, h3⟩ hmiss
  · intro session wId hs hw hne h1 h2 h3 h4 h5
    subst hs
    subst hw
    subst h5
    simp [withSessionAuthenticationForWorkspace, withSessionAuthentication, hne,
      h1, h2, h3, h4]
  · intro t h
    cases session? with
    | none =>
      exact absurd h (by
        simp [withSessionAuthenticationForWorkspace, withSessionAuthentication])
    | some session =>
      cases wId? with
      | none =>
        exact absurd h (by
          simp [withSessionAuthenticationForWorkspace, withSessionAuthentication])
      | some v =>
        cases v with
        | arr l =>
          exact absurd h (by
            simp [withSessionAuthenticationForWorkspace, withSessionAuthentication])
        | str wId =>
          by_cases hne : wId = ""
          · exact absurd h (by
              simp [withSessionAuthenticationForWorkspace, withSessionAuthentication, hne])
          refine ⟨session, wId, rfl, rfl, hne, ?_⟩
          cases h1 : (fromSession session wId).hasWorkspace with
          | false =>
            exact absurd h (by
              simp [withSessionAuthenticationForWorkspace, withSessionAuthentication, hne, h1])
          | true =>
          cases h2 : (fromSession session wId).hasPlan with
          | false =>
            exact absurd h (by
              simp [withSessionAuthenticationForWorkspace, withSessionAuthentication, hne,
                h1, h2])
          | true =>
          cases h3 : (fromSession session wId).hasUser with
          | false =>
            exact absurd h (by
              simp [withSessionAuthenticationForWorkspace, withSessionAuthentication, hne,
                h1, h2, h3])
          | true =>
          refine ⟨rfl, rfl, rfl, ?_⟩
          cases h4 : (fromSession session wId).isUser with
          | true => exact Or.inl rfl
          | false =>
          cases h5 : allow with
          | true => exact Or.inr rfl
          | false =>
          subst h5
          exact absurd h (by
            simp [withSessionAuthenticationForWorkspace, withSessionAuthentication, hne,
              h1, h2, h3, h4])

/-- Witness for C1: with no session, the wrapper answers 401
`not_authenticated` for a concrete handler and environment. -/
theorem claim_C1_session_workspace_wrapper_witness :
    withSessionAuthenticationForWorkspace
        (fun (_ : Unit) (_ : String) => Authenticator.mk true true true true true)
        (fun _ _ => Outcome.handled (0 : Nat)) false none none =
      Outcome.apiError 401 "not_authenticated"
        "The user does not have an active session or is not authenticated." :=
  (claim_C1_session_workspace_wrapper
    (fun (_ : Unit) (_ : String) => Authenticator.mk true true true true true)
    (fun _ _ => Outcome.handled (0 : Nat)) false none none).1 rfl

end AuthWrap

namespace AuthWrap

/-- C2: for every request to a route wrapped by `withPublicAPIAuthentication`
(with a matched string `wId`): a request whose bearer token cannot be
extracted gets 401; an Auth0 access token that fails verification, or that
resolves to no user or to a user who is not a member of workspace `wId`, gets
401; an API key whose workspace authenticator does not hold the builder role
gets 401 `workspace_auth_error` unless `allowUserOutsideCurrentWorkspace` is
true; and the wrapped handler is invoked only when none of these rejections
fires. -/
theorem claim_C2_public_api_wrapper {T : Type} (env : PubEnv)
    (handler : Authenticator → Option Authenticator → Outcome T)
    (allow : Bool) (wId : String) (hne : wId ≠ "") :
    (env.getBearerToken = Except.error () →
      withPublicAPIAuthentication env handler allow (some (QueryVal.str wId)) =
        Outcome.apiError 401 "not_authenticated"
          "The request does not have valid authentication credentials.") ∧
    (∀ token, env.getBearerToken = Except.ok token →
      env.getAuthType token = AuthMethod.access_token →
      env.verifyAuth0Token token = Except.error () →
      withPublicAPIAuthentication env handler allow (some (QueryVal.str wId)) =
        Outcome.apiError 401 "not_authenticated"
          "The request does not have valid authentication credentials.") ∧
    (∀ token decoded, env.getBearerToken = Except.ok token →
      env.getAuthType token = AuthMethod.access_token →
      env.verifyAuth0Token token = Except.ok decoded →
      (env.fromAuth0Token decoded wId).hasUser = false →
      withPublicAPIAuthentication env handler allow (some (QueryVal.str wId)) =
        Outcome.apiError 401 "not_authenticated"
          "The user does not have an active session or is not authenticated.") ∧
    (∀ token decoded, env.getBearerToken = Except.ok token →
      env.getAuthType token = AuthMethod.access_token →
      env.verifyAuth0Token token = Except.ok decoded →
      (env.fromAuth0Token decoded wId).hasUser = true →
      (env.fromAuth0Token decoded wId).isUser = false →
      withPublicAPIAuthentication env handler allow (some (QueryVal.str wId)) =
        Outcome.apiError 401 "workspace_auth_error"
          "Only users of the workspace can access this route.") ∧
    (∀ token key, env.getBearerToken = Except.ok token →
      env.getAuthType token = AuthMethod.api_key →
      env.getAPIKey = Except.ok key →
      (env.fromKey key wId).2.hasWorkspace = true →
      (env.fromKey key wId).2.hasPlan = true →
      (env.fromKey key wId).2.isBuilder = false → allow = false →
      withPublicAPIAuthentication env handler allow (some (QueryVal.str wId)) =
        Outcome.apiError 401 "workspace_auth_error"
          "Only users of the workspace can access this route.") ∧
    (∀ t, withPublicAPIAuthentication env handler allow (some (QueryVal.str wId))
        = Outcome.handled t →
      ∃ token, env.getBearerToken = Except.ok token ∧
        ((env.getAuthType token = AuthMethod.access_token ∧
          ∃ decoded, env.verifyAuth0Token token = Except.ok decoded ∧
            (env.fromAuth0Token decoded wId).hasUser = true ∧
            (env.fromAuth0Token decoded wId).isUser = true) ∨
         (env.getAuthType token = AuthMethod.api_key ∧
          ∃ key, env.getAPIKey = Except.ok key ∧
            (env.fromKey key wId).2.hasWorkspace = true ∧
            (env.fromKey key wId).2.hasPlan = true ∧
            ((env.fromKey key wId).2.isBuilder = true ∨ allow = true)))) := by
  refine ⟨?_, ?_, ?_, ?_, ?_, ?_⟩
  · intro hb
    simp [withPublicAPIAuthentication, hne, hb]
  · intro token hb hat hv
    simp [withPublicAPIAuthentication, hne, hb, hat, hv]
  · intro token decoded hb hat hv hu
    simp [withPublicAPIAuthentication, hne, hb, hat, hv, hu]
  · intro token decoded hb hat hv hu hiu
    simp [withPublicAPIAuthentication, hne, hb, hat, hv, hu, hiu]
  · intro token key hb hat hk hwk hpl hbl hal
    subst hal
    simp [withPublicAPIAuthentication, hne, hb, hat, hk, hwk, hpl, hbl]
  · intro t h
    cases hb : env.getBearerToken with
    | error e =>
      exact absurd h (by simp [withPublicAPIAuthentication, hne, hb])
    | ok token =>
      refine ⟨token, rfl, ?_⟩
      cases hat : env.getAuthType token with
      | access_token =>
        refine Or.inl ⟨rfl, ?_⟩
        cases hv : env.verifyAuth0Token token with
        | error e =>
          exact absurd h (by simp [withPublicAPIAuthentication, hne, hb, hat, hv])
        | ok decoded =>
          refine ⟨decoded, rfl, ?_⟩
          cases hu : (env.fromAuth0Token decoded wId).hasUser with
          | false =>
            exact absurd h (by simp [withPublicAPIAuthentication, hne, hb, hat, hv, hu])
          | true =>
          cases hiu : (env.fromAuth0Token decoded wId).isUser with
          | false =>
            exact absurd h (by simp [withPublicAPIAuthentication, hne, hb, hat, hv, hu, hiu])
          | true => exact ⟨rfl, rfl⟩
      | api_key =>
        refine Or.inr ⟨rfl, ?_⟩
        cases hk : env.getAPIKey with
        | error e =>
          exact absurd h (by simp [withPublicAPIAuthentication, hne, hb, hat, hk])
        | ok key =>
          refine ⟨key, rfl, ?_⟩
          cases hwk : (env.fromKey key wId).2.hasWorkspace with
          | false =>
            exact absurd h (by simp [withPublicAPIAuthentication, hne, hb, hat, hk, hwk])
          | true =>
          cases hpl : (env.fromKey key wId).2.hasPlan with
          | false =>
            exact absurd h (by simp [withPublicAPIAuthentication, hne, hb, hat, hk, hwk, hpl])
          | true =>
          refine ⟨rfl, rfl, ?_⟩
          cases hbl : (env.fromKey key wId).2.isBuilder with
          | true => exact Or.inl rfl
          | false =>
          cases hal : allow with
          | true => exact Or.inr rfl
          | false =>
          subst hal
          exact absurd h (by
            simp [withPublicAPIAuthentication, hne, hb, hat, hk, hwk, hpl, hbl])

/-- Witness for C2: with a failing bearer-token extraction, the wrapper
answers 401 `not_authenticated` for a concrete environment and handler. -/
theorem claim_C2_public_api_wrapper_witness :
    withPublicAPIAuthentication
        (PubEnv.mk (Except.error ()) (fun _ => AuthMethod.api_key)
          (fun _ => Except.error ())
          (fun _ _ => Authenticator.mk true true true true true)
          (Except.error (400, "invalid_api_key_error", "The API key is invalid."))
          (fun _ _ => (Authenticator.mk true true true true true,
            Authenticator.mk true true true true true))
          none (fun _ _ => none))
        (fun _ _ => Outcome.handled (0 : Nat)) false (some (QueryVal.str "w1")) =
      Outcome.apiError 401 "not_authenticated"
        "The request does not have valid authentication credentials." :=
  (claim_C2_public_api_wrapper
    (PubEnv.mk (Except.error ()) (fun _ => AuthMethod.api_key)
      (fun _ => Except.error ())
      (fun _ _ => Authenticator.mk true true true true true)
      (Except.error (400, "invalid_api_key_error", "The API key is invalid."))
      (fun _ _ => (Authenticator.mk true true true true true,
        Authenticator.mk true true true true true))
      none (fun _ _ => none))
    (fun _ _ => Outcome.handled (0 : Nat)) false "w1" (by decide)).1 rfl

end AuthWrap

namespace Datasets

/-- C6: `getDatasetHash` returns `none` when the authenticator has no
workspace, when the named dataset does not exist for the app and workspace, or
when any core-API call fails (including when the core API reports no hashes
for the dataset); and when the `hash` argument is `"latest"` it is replaced by
the first hash of the core API's list for that dataset name before the
content is fetched and returned. -/
theorem claim_C6_getDatasetHash {D : Type} (env : CoreEnv D)
    (datasetTable : List DatasetRow) (auth : Auth) (app : AppType)
    (name hash : String) :
    (auth.workspace = none → getDatasetHash env datasetTable auth app name hash = none) ∧
    (∀ owner, auth.workspace = some owner →
      datasetTable.find? (fun d =>
        d.workspaceId == owner.id && d.appId == app.internalId && d.name == name) = none →
      getDatasetHash env datasetTable auth app name hash = none) ∧
    (∀ owner dataset, auth.workspace = some owner →
      datasetTable.find? (fun d =>
        d.workspaceId == owner.id && d.appId == app.internalId && d.name == name)
        = some dataset →
      hash = "latest" →
      (env.getDatasets app.dustAPIProjectId = Except.error () ∨
       recLookup ((env.getDatasets app.dustAPIProjectId).toOption.getD []) dataset.name
          = none ∨
       recLookup ((env.getDatasets app.dustAPIProjectId).toOption.getD []) dataset.name
          = some []) →
      getDatasetHash env datasetTable auth app name hash = none) ∧
    (∀ owner dataset, auth.workspace = some owner →
      datasetTable.find? (fun d =>
        d.workspaceId == owner.id && d.appId == app.internalId && d.name == name)
        = some dataset →
      hash ≠ "latest" →
      env.getDataset app.dustAPIProjectId dataset.name hash = Except.error () →
      getDatasetHash env datasetTable auth app name hash = none) ∧
    (∀ owner dataset apiDatasets h0 rest, auth.workspace = some owner →
      datasetTable.find? (fun d =>
        d.workspaceId == owner.id && d.appId == app.internalId && d.name == name)
        = some dataset →
      hash = "latest" →
      env.getDatasets app.dustAPIProjectId = Except.ok apiDatasets →
      recLookup apiDatasets dataset.name = some (h0 :: rest) →
      getDatasetHash env datasetTable auth app name hash =
        (match env.getDataset app.dustAPIProjectId dataset.name h0 with
         | Except.error _ => none
         | Except.ok d => some (DatasetType.mk dataset.name dataset.description d))) := by
  refine ⟨?_, ?_, ?_, ?_, ?_⟩
  · intro hw
    simp [getDatasetHash, hw]
  · intro owner hw hf
    simp [getDatasetHash, hw, hf]
  · intro owner dataset hw hf hl hfail
    subst hl
    rcases hfail with hfail | hfail | hfail
    · simp [getDatasetHash, hw, hf, hfail]
    · cases hd : env.getDatasets app.dustAPIProjectId with
      | error e => simp [getDatasetHash, hw, hf, hd]
      | ok apiDatasets =>
        rw [hd] at hfail
        simp only [Except.toOption, Option.getD] at hfail
        simp [getDatasetHash, hw, hf, hd, hfail]
    · cases hd : env.getDatasets app.dustAPIProjectId with
      | error e => simp [getDatasetHash, hw, hf, hd]
      | ok apiDatasets =>
        rw [hd] at hfail
        simp only [Except.toOption, Option.getD] at hfail
        simp [getDatasetHash, hw, hf, hd, hfail]
  · intro owner dataset hw hf hl hfetch
    have hl' : (hash == "latest") = false := by
      simp [hl]
    simp [getDatasetHash, hw, hf, hl', hfetch]
  · intro owner dataset apiDatasets h0 rest hw hf hl hd hlook
    subst hl
    simp [getDatasetHash, hw, hf, hd, hlook]

/-- Witness for C6: with no workspace on the authenticator, the result is
`none`, at a concrete environment. -/
theorem claim_C6_getDatasetHash_witness :
    getDatasetHash
        (CoreEnv.mk (fun _ => Except.ok [("d1", ["h1"])])
          (fun _ _ _ => Except.ok (0 : Nat)))
        [DatasetRow.mk 1 1 "d1" none] (Auth.mk none) (AppType.mk 1 "p1") "d1" "latest"
      = none :=
  (claim_C6_getDatasetHash
    (CoreEnv.mk (fun _ => Except.ok [("d1", ["h1"])])
      (fun _ _ _ => Except.ok (0 : Nat)))
    [DatasetRow.mk 1 1 "d1" none] (Auth.mk none) (AppType.mk 1 "p1") "d1" "latest").1 rfl

end Datasets

namespace IncludeFile

/-- C5: `renderForMultiActionsModel` returns a function message whose content
is exactly the file's text precisely when an includable content fragment with
the requested fileId is found, its rendered content is text, and its token
count is at most `contextSize / 4`; when the token count exceeds
`contextSize / 4` the content is the too-many-tokens error string; every
other failure produces an `Error: `-prefixed content; and the image and
CSV/TSV content types are never includable. -/
theorem claim_C5_render_include_file (env : IncludeEnv)
    (action : ConversationIncludeFileAction)
    (conversation : List (List MessageM)) (model : ModelConfiguration) :
    (∀ m rRes text tokens,
      conversation.join.find? (fun m =>
        match m with
        | MessageM.contentFragment fId ct =>
          isConversationIncludableFileContentType ct && fId == action.fileId
        | MessageM.other => false) = some m →
      env.renderContentFragmentForModel m conversation model = Except.ok rRes →
      rRes.content.head? = some (ContentPiece.text text) →
      env.tokenize text model.providerId model.modelId = Except.ok tokens →
      tokens.length ≤ model.contextSize / 4 →
      renderForMultiActionsModel env action conversation model =
        FunctionMessage.mk "function"
          (action.functionCallName.getD "include_conversation_file")
          (action.functionCallId.getD ("call_" ++ Zendesk.natToDecimal action.id))
          text) ∧
    (∀ m rRes text tokens,
      conversation.join.find? (fun m =>
        match m with
        | MessageM.contentFragment fId ct =>
          isConversationIncludableFileContentType ct && fId == action.fileId
        | MessageM.other => false) = some m →
      env.renderContentFragmentForModel m conversation model = Except.ok rRes →
      rRes.content.head? = some (ContentPiece.text text) →
      env.tokenize text model.providerId model.modelId = Except.ok tokens →
      tokens.length > model.contextSize / 4 →
      (renderForMultiActionsModel env action conversation model).content =
        "Error: " ++ ("File `" ++ action.fileId ++
          "` has too many tokens to be included, use semantic search instead.")) ∧
    (∀ ct, isSupportedImageContentType ct = true →
      isConversationIncludableFileContentType ct = false) ∧
    (isConversationIncludableFileContentType
        SupportedContentFragmentType.text_comma_separated_values = false ∧
     isConversationIncludableFileContentType
        SupportedContentFragmentType.text_csv = false ∧
     isConversationIncludableFileContentType
        SupportedContentFragmentType.text_tab_separated_values = false ∧
     isConversationIncludableFileContentType
        SupportedContentFragmentType.text_tsv = false) ∧
    ((∀ e : String,
        (renderForMultiActionsModel env action conversation model).content ≠
          "Error: " ++ e) →
      ∃ m rRes text tokens,
        conversation.join.find? (fun m =>
          match m with
          | MessageM.contentFragment fId ct =>
            isConversationIncludableFileContentType ct && fId == action.fileId
          | MessageM.other => false) = some m ∧
        env.renderContentFragmentForModel m conversation model = Except.ok rRes ∧
        rRes.content.head? = some (ContentPiece.text text) ∧
        env.tokenize text model.providerId model.modelId = Except.ok tokens ∧
        tokens.length ≤ model.contextSize / 4 ∧
        (renderForMultiActionsModel env action conversation model).content = text) := by
  refine ⟨?_, ?_, ?_, by decide, ?_⟩
  · intro m rRes text tokens hfind hrender hhead htok hle
    have hnot : ¬ tokens.length > model.contextSize / CONTEXT_SIZE_DIVISOR_FOR_INCLUDE := by
      simp only [CONTEXT_SIZE_DIVISOR_FOR_INCLUDE]
      omega
    simp [renderForMultiActionsModel, hfind, hrender, hhead, htok, hnot]
  · intro m rRes text tokens hfind hrender hhead htok hgt
    have hyes : tokens.length > model.contextSize / CONTEXT_SIZE_DIVISOR_FOR_INCLUDE := by
      simp only [CONTEXT_SIZE_DIVISOR_FOR_INCLUDE]
      omega
    simp [renderForMultiActionsModel, hfind, hrender, hhead, htok, hyes]
  · decide
  · intro happ
    cases hfind : conversation.join.find? (fun m =>
        match m with
        | MessageM.contentFragment fId ct =>
          isConversationIncludableFileContentType ct && fId == action.fileId
        | MessageM.other => false) with
    | none =>
      refine absurd ?_ (happ ("File `" ++ action.fileId ++ "` not found in conversation"))
      simp [renderForMultiActionsModel, hfind]
    | some m =>
      cases hrender : env.renderContentFragmentForModel m conversation model with
      | error e =>
        refine absurd ?_ (happ e)
        simp [renderForMultiActionsModel, hfind, hrender]
      | ok rRes =>
        cases hhead : rRes.content.head? with
        | none =>
          refine absurd ?_ (happ ("File `" ++ action.fileId ++ "` has no text content"))
          simp [renderForMultiActionsModel, hfind, hrender, hhead]
        | some piece =>
          cases piece with
          | other =>
            refine absurd ?_ (happ ("File `" ++ action.fileId ++ "` has no text content"))
            simp [renderForMultiActionsModel, hfind, hrender, hhead]
          | text text =>
            cases htok : env.tokenize text model.providerId model.modelId with
            | error e =>
              refine absurd ?_ (happ e)
              simp [renderForMultiActionsModel, hfind, hrender, hhead, htok]
            | ok tokens =>
              by_cases hlen :
                  tokens.length > model.contextSize / CONTEXT_SIZE_DIVISOR_FOR_INCLUDE
              · refine absurd ?_ (happ ("File `" ++ action.fileId ++
                  "` has too many tokens to be included, use semantic search instead."))
                simp [renderForMultiActionsModel, hfind, hrender, hhead, htok, hlen]
              · refine ⟨m, rRes, text, tokens, rfl, hrender, hhead, htok, ?_, ?_⟩
                · simp only [CONTEXT_SIZE_DIVISOR_FOR_INCLUDE] at hlen
                  omega
                · simp [renderForMultiActionsModel, hfind, hrender, hhead, htok, hlen]

/-- Witness for C5 at a concrete conversation, environment and model: a plain
text content fragment with 3 tokens against a context size of 100 is rendered
as a function message whose content is the file's text. -/
theorem claim_C5_render_include_file_witness :
    renderForMultiActionsModel
        (IncludeEnv.mk
          (fun _ _ _ => Except.ok (RenderedContent.mk [ContentPiece.text "hello"]))
          (fun _ _ _ => Except.ok [1, 2, 3]))
        (ConversationIncludeFileAction.mk 1 "f1" none none)
        [[MessageM.contentFragment "f1" SupportedContentFragmentType.text_plain]]
        (ModelConfiguration.mk "openai" "gpt-4" 100) =
      FunctionMessage.mk "function" "include_conversation_file"
        ("call_" ++ Zendesk.natToDecimal 1) "hello" :=
  (claim_C5_render_include_file
    (IncludeEnv.mk
      (fun _ _ _ => Except.ok (RenderedContent.mk [ContentPiece.text "hello"]))
      (fun _ _ _ => Except.ok [1, 2, 3]))
    (ConversationIncludeFileAction.mk 1 "f1" none none)
    [[MessageM.contentFragment "f1" SupportedContentFragmentType.text_plain]]
    (ModelConfiguration.mk "openai" "gpt-4" 100)).1
    (MessageM.contentFragment "f1" SupportedContentFragmentType.text_plain)
    (RenderedContent.mk [ContentPiece.text "hello"]) "hello" [1, 2, 3]
    (by decide) rfl rfl rfl (by decide)

end IncludeFile

namespace Uploader

/-- C4: when the combined size of already-held blobs plus new files of a
supported image type exceeds 25 MB, or the combined size for all non-image
files exceeds 60 MB, `handleFilesUpload` uploads nothing, emits an error
notification, leaves `fileBlobs` unchanged, and returns `undefined`. -/
theorem claim_C4_upload_size_guard (env : UploadEnv) (st : UploaderState)
    (files : List FileSpec) (updateBlobs? : Option Bool)
    (h : (sizeTotals st.fileBlobs files).totalImageSize > COMBINED_MAX_IMAGE_FILES_SIZE ∨
      (sizeTotals st.fileBlobs files).totalTextualSize > COMBINED_MAX_TEXT_FILES_SIZE) :
    (handleFilesUpload env st files updateBlobs?).1.fileBlobs = st.fileBlobs ∧
    (handleFilesUpload env st files updateBlobs?).1.uploadCalls = st.uploadCalls ∧
    (handleFilesUpload env st files updateBlobs?).1.notifications =
      st.notifications ++
        [Notification.mk "error" "Files too large."
          "Combined file sizes exceed the limits. Please upload smaller files."] ∧
    (handleFilesUpload env st files updateBlobs?).2 = none := by
  rcases h with h | h <;> simp [handleFilesUpload, h]

/-- Witness for C4: a single 60 MB + 1 byte plain-text file from the empty
state trips the guard. -/
theorem claim_C4_upload_size_guard_witness :
    (handleFilesUpload (UploadEnv.mk (fun _ _ _ _ _ => Except.error "down"))
        initialState
        [FileSpec.mk "big.txt" "text/plain" (COMBINED_MAX_TEXT_FILES_SIZE + 1)]
        none).1.fileBlobs = initialState.fileBlobs ∧
    (handleFilesUpload (UploadEnv.mk (fun _ _ _ _ _ => Except.error "down"))
        initialState
        [FileSpec.mk "big.txt" "text/plain" (COMBINED_MAX_TEXT_FILES_SIZE + 1)]
        none).1.uploadCalls = initialState.uploadCalls ∧
    (handleFilesUpload (UploadEnv.mk (fun _ _ _ _ _ => Except.error "down"))
        initialState
        [FileSpec.mk "big.txt" "text/plain" (COMBINED_MAX_TEXT_FILES_SIZE + 1)]
        none).1.notifications =
      initialState.notifications ++
        [Notification.mk "error" "Files too large."
          "Combined file sizes exceed the limits. Please upload smaller files."] ∧
    (handleFilesUpload (UploadEnv.mk (fun _ _ _ _ _ => Except.error "down"))
        initialState
        [FileSpec.mk "big.txt" "text/plain" (COMBINED_MAX_TEXT_FILES_SIZE + 1)]
        none).2 = none :=
  claim_C4_upload_size_guard (UploadEnv.mk (fun _ _ _ _ _ => Except.error "down"))
    initialState
    [FileSpec.mk "big.txt" "text/plain" (COMBINED_MAX_TEXT_FILES_SIZE + 1)]
    none (Or.inr (by decide))

end Uploader

namespace Uploader

theorem psf_fst_b_indep (files : List FileSpec) (held : List FileBlob)
    (a : List (Except FileBlobUploadError FileBlob)) (b b' : List Notification) :
    (files.foldl (processSelectedFilesStep held) (a, b)).1 =
      (files.foldl (processSelectedFilesStep held) (a, b')).1 := by
  induction files generalizing a b b' with
  | nil => rfl
  | cons f fs ih =>
    simp only [List.foldl_cons, processSelectedFilesStep]
    by_cases hskip : held.any (fun x => x.id == f.name)
    · simp only [hskip, if_true]
      exact ih _ _ _
    · by_cases hsupp : isSupportedFileContentType f.type
      · simp only [hskip, if_false, hsupp, Bool.not_true, if_true]
        exact ih _ _ _
      · simp only [hskip, if_false, hsupp, Bool.not_false, if_true]
        exact ih _ _ _

theorem psf_fst_filter (files : List FileSpec) (held : List FileBlob)
    (a : List (Except FileBlobUploadError FileBlob)) (b : List Notification) :
    (files.foldl (processSelectedFilesStep held) (a, b)).1 =
      ((files.filter (fun f => !(held.any (fun x => x.id == f.name)))).foldl
        (processSelectedFilesStep held) (a, b)).1 := by
  induction files generalizing a b with
  | nil => rfl
  | cons f fs ih =>
    by_cases hskip : held.any (fun x => x.id == f.name)
    · have hkeep : (!(held.any (fun x => x.id == f.name))) = false := by simp [hskip]
      simp only [List.foldl_cons, List.filter_cons, hkeep, if_false,
        processSelectedFilesStep, hskip, if_true]
      rw [psf_fst_b_indep fs held a (b ++ [Notification.mk "error" "File already exists."
        ("File \"" ++ f.name ++ "\" is already uploaded.")]) b]
      exact ih _ _
    · have hkeep : (!(held.any (fun x => x.id == f.name))) = true := by simp [hskip]
      simp only [List.foldl_cons, List.filter_cons, hkeep, if_true]
      simp only [processSelectedFilesStep, hskip, if_false]
      by_cases hsupp : isSupportedFileContentType f.type <;> simp only [hsupp] <;>
        exact ih _ _

theorem psf_snd_mem (files : List FileSpec) (held : List FileBlob)
    (a : List (Except FileBlobUploadError FileBlob)) (b : List Notification)
    (x : Notification) (hx : x ∈ b) :
    x ∈ (files.foldl (processSelectedFilesStep held) (a, b)).2 := by
  induction files generalizing a b with
  | nil => exact hx
  | cons f fs ih =>
    simp only [List.foldl_cons, processSelectedFilesStep]
    by_cases hskip : held.any (fun x => x.id == f.name)
    · simp only [hskip, if_true]
      exact ih _ _ (List.mem_append_left _ hx)
    · by_cases hsupp : isSupportedFileContentType f.type <;>
        simp only [hskip, if_false, hsupp, Bool.not_true, Bool.not_false, if_true] <;>
        exact ih _ _ hx

theorem psf_dup_notified (files : List FileSpec) (held : List FileBlob)
    (a : List (Except FileBlobUploadError FileBlob)) (b : List Notification)
    (f : FileSpec) (hf : f ∈ files) (hdup : held.any (fun x => x.id == f.name) = true) :
    Notification.mk "error" "File already exists."
        ("File \"" ++ f.name ++ "\" is already uploaded.")
      ∈ (files.foldl (processSelectedFilesStep held) (a, b)).2 := by
  induction files generalizing a b with
  | nil => cases hf
  | cons g gs ih =>
    rcases List.mem_cons.mp hf with hg | hg
    · subst hg
      simp only [List.foldl_cons, processSelectedFilesStep, hdup, if_true]
      exact psf_snd_mem _ _ _ _ _ (List.mem_append_right _ (List.mem_singleton.mpr rfl))
    · simp only [List.foldl_cons]
      exact ih _ _ hg

theorem mapSet_keyid (m : List (String × FileBlob)) (k : String) (v : FileBlob)
    (hm : ∀ p ∈ m, p.1 = p.2.id) (hv : k = v.id) :
    ∀ p ∈ mapSet m k v, p.1 = p.2.id := by
  intro p hp
  rw [mapSet] at hp
  by_cases hany : m.any (fun p => p.1 == k)
  · rw [if_pos hany] at hp
    rcases List.mem_map.mp hp with ⟨q, hq, hqe⟩
    by_cases hqk : q.1 == k
    · rw [if_pos hqk] at hqe
      rw [← hqe]
      exact hv
    · rw [if_neg hqk] at hqe
      rw [← hqe]
      exact hm q hq
  · rw [if_neg hany] at hp
    rcases List.mem_append.mp hp with hp | hp
    · exact hm p hp
    · rw [List.mem_singleton.mp hp]
      exact hv

theorem mapSet_keys_nodup (m : List (String × FileBlob)) (k : String) (v : FileBlob)
    (h : (m.map Prod.fst).Nodup) : ((mapSet m k v).map Prod.fst).Nodup := by
  rw [mapSet]
  by_cases hany : m.any (fun p => p.1 == k)
  · rw [if_pos hany]
    have hkeys : ((m.map (fun p => if p.1 == k then (k, v) else p)).map Prod.fst)
        = m.map Prod.fst := by
      rw [List.map_map]
      apply List.map_congr_left
      intro p _
      by_cases hpk : p.1 == k
      · simp only [Function.comp, hpk, if_true]
        exact (eq_of_beq hpk).symm
      · simp [Function.comp, hpk]
    rw [hkeys]
    exact h
  · rw [if_neg hany, List.map_append]
    have hk : k ∉ m.map Prod.fst := by
      intro hmem
      rcases List.mem_map.mp hmem with ⟨p, hp, hpk⟩
      exact hany (List.any_eq_true.mpr ⟨p, hp, by simp [hpk]⟩)
    simp only [List.map_cons, List.map_nil]
    rw [List.nodup_append]
    refine ⟨h, List.nodup_singleton k, ?_⟩
    intro x hx hk1
    rw [List.mem_singleton.mp hk1] at hx
    exact hk hx

theorem mapFold_props (entries : List (String × FileBlob)) :
    ∀ m : List (String × FileBlob), (m.map Prod.fst).Nodup →
      (∀ p ∈ m, p.1 = p.2.id) → (∀ p ∈ entries, p.1 = p.2.id) →
      (((entries.foldl (fun m p => mapSet m p.1 p.2) m).map Prod.fst).Nodup ∧
       (∀ q ∈ entries.foldl (fun m p => mapSet m p.1 p.2) m, q.1 = q.2.id)) := by
  induction entries with
  | nil => exact fun m h1 h2 _ => ⟨h1, h2⟩
  | cons p ps ih =>
    intro m h1 h2 h3
    simp only [List.foldl_cons]
    apply ih
    · exact mapSet_keys_nodup _ _ _ h1
    · exact mapSet_keyid _ _ _ h2 (h3 p (List.mem_cons_self _ _))
    · exact fun q hq => h3 q (List.mem_cons_of_mem _ hq)

theorem values_ids_nodup (m : List (String × FileBlob))
    (h1 : (m.map Prod.fst).Nodup) (h2 : ∀ p ∈ m, p.1 = p.2.id) :
    ((m.map (fun p => p.2)).map (fun b => b.id)).Nodup := by
  rw [List.map_map]
  have hcongr : m.map ((fun b : FileBlob => b.id) ∘ (fun p : String × FileBlob => p.2))
      = m.map Prod.fst := by
    apply List.map_congr_left
    intro p hp
    exact (h2 p hp).symm
  rw [hcongr]
  exact h1

theorem merge_ids_nodup (succ : List FileBlob) (base : List FileBlob) :
    (((succ.foldl (fun m blob => mapSet m blob.id blob)
        (mapFromEntries (base.map (fun blob => (blob.id, blob))))).map
          (fun p => p.2)).map (fun b => b.id)).Nodup := by
  have hfold : succ.foldl (fun m blob => mapSet m blob.id blob)
      (mapFromEntries (base.map (fun blob => (blob.id, blob))))
      = (base.map (fun blob => (blob.id, blob)) ++ succ.map (fun b => (b.id, b))).foldl
          (fun m p => mapSet m p.1 p.2) [] := by
    rw [List.foldl_append, List.foldl_map]
    rfl
  rw [hfold]
  have hkeyid : ∀ p ∈ base.map (fun blob => (blob.id, blob)) ++
      succ.map (fun b => (b.id, b)), p.1 = p.2.id := by
    intro p hp
    rcases List.mem_append.mp hp with hp | hp <;>
      { rcases List.mem_map.mp hp with ⟨b, _, hb⟩
        rw [← hb] }
  have hprops := mapFold_props _ [] (by simp) (by simp) hkeyid
  exact values_ids_nodup _ hprops.1 hprops.2

theorem filter_ids_nodup (l : List FileBlob) (p : FileBlob → Bool)
    (h : (l.map (fun b => b.id)).Nodup) : ((l.filter p).map (fun b => b.id)).Nodup :=
  List.Nodup.sublist (List.Sublist.map _ (List.filter_sublist l)) h

theorem processResults_nodup (results : List (Except FileBlobUploadError FileBlob))
    (updateBlobs : Bool) (prevFiles : List FileBlob)
    (h : (prevFiles.map (fun b => b.id)).Nodup) :
    (((processResults results updateBlobs prevFiles).2.2).map (fun b => b.id)).Nodup := by
  rw [processResults]
  dsimp only
  split
  · exact merge_ids_nodup _ _
  · split
    · exact filter_ids_nodup _ _ h
    · exact h

theorem handleFilesUpload_nodup (env : UploadEnv) (st : UploaderState)
    (files : List FileSpec) (updateBlobs? : Option Bool)
    (h : (st.fileBlobs.map (fun b => b.id)).Nodup) :
    ((handleFilesUpload env st files updateBlobs?).1.fileBlobs.map (fun b => b.id)).Nodup := by
  rw [handleFilesUpload]
  dsimp only
  split
  · exact h
  · exact processResults_nodup _ _ _ (processResults_nodup _ _ _ h)

theorem removeFile_nodup (st : UploaderState) (fileId : String)
    (h : (st.fileBlobs.map (fun b => b.id)).Nodup) :
    ((removeFile st fileId).fileBlobs.map (fun b => b.id)).Nodup := by
  rw [removeFile]
  cases st.fileBlobs.find? (fun f => f.id == fileId) with
  | none => exact h
  | some fileBlob => exact filter_ids_nodup _ _ h

theorem foldl_applyOp_nodup (ops : List UploaderOp) :
    ∀ st : UploaderState, (st.fileBlobs.map (fun b => b.id)).Nodup →
      ((ops.foldl applyOp st).fileBlobs.map (fun b => b.id)).Nodup := by
  induction ops with
  | nil => exact fun _ h => h
  | cons op ops ih =>
    intro st h
    simp only [List.foldl_cons]
    apply ih
    cases op with
    | upload env files updateBlobs? => exact handleFilesUpload_nodup env st files updateBlobs? h
    | remove fileId => exact removeFile_nodup st fileId h
    | reset => simp [applyOp, resetUpload]

/-- C10: `processSelectedFiles` produces no result entry for a selected file
whose name equals the id of an already-held blob (the results equal those of
the batch with such files filtered out) and emits a File-already-exists
notification for each of them; and after every sequence of
`handleFilesUpload`, `removeFile` and `resetUpload` operations the ids of the
`fileBlobs` entries are pairwise distinct. -/
theorem claim_C10_fileblob_ids_distinct :
    (∀ (held : List FileBlob) (files : List FileSpec),
      (processSelectedFiles held files).1 =
        (processSelectedFiles held
          (files.filter (fun f => !(held.any (fun b => b.id == f.name))))).1) ∧
    (∀ (held : List FileBlob) (files : List FileSpec) (f : FileSpec),
      f ∈ files → held.any (fun b => b.id == f.name) = true →
      Notification.mk "error" "File already exists."
          ("File \"" ++ f.name ++ "\" is already uploaded.")
        ∈ (processSelectedFiles held files).2) ∧
    (∀ ops : List UploaderOp,
      (((runOps ops).fileBlobs).map (fun b => b.id)).Nodup) := by
  refine ⟨?_, ?_, ?_⟩
  · intro held files
    exact psf_fst_filter files held [] []
  · intro held files f hf hdup
    exact psf_dup_notified files held [] [] f hf hdup
  · intro ops
    exact foldl_applyOp_nodup ops initialState (by simp [initialState])

/-- Witness for C10: a selected file whose name collides with a held blob id
triggers the File-already-exists notification. -/
theorem claim_C10_fileblob_ids_distinct_witness :
    Notification.mk "error" "File already exists."
        ("File \"" ++ "a.txt" ++ "\" is already uploaded.")
      ∈ (processSelectedFiles
          [createFileBlob (FileSpec.mk "a.txt" "text/plain" 3) "text/plain" none]
          [FileSpec.mk "a.txt" "text/plain" 4]).2 :=
  claim_C10_fileblob_ids_distinct.2.1
    [createFileBlob (FileSpec.mk "a.txt" "text/plain" 3) "text/plain" none]
    [FileSpec.mk "a.txt" "text/plain" 4]
    (FileSpec.mk "a.txt" "text/plain" 4)
    (List.mem_singleton.mpr rfl) (by decide)

end Uploader

namespace Plans

theorem find?_of_filter_singleton {α : Type} (l : List α) (p : α → Bool) (x : α)
    (h : l.filter p = [x]) : l.find? p = some x := by
  induction l with
  | nil => simp at h
  | cons a as ih =>
    by_cases hpa : p a
    · rw [List.filter_cons_of_pos hpa] at h
      have ha : a = x := (List.cons.injEq _ _ _ _).mp h |>.1
      rw [List.find?_cons_of_pos _ hpa, ha]
    · rw [List.filter_cons_of_neg hpa] at h
      rw [List.find?_cons_of_neg _ (by simpa using hpa)]
      exact ih h

theorem filter_singleton_of_mem {α : Type} (l : List α) (p : α → Bool) (x : α)
    (hx : x ∈ l) (hpx : p x = true) (hle : (l.filter p).length ≤ 1) :
    l.filter p = [x] := by
  have hmem : x ∈ l.filter p := List.mem_filter.mpr ⟨hx, hpx⟩
  have hne : l.filter p ≠ [] := List.ne_nil_of_mem hmem
  have h1 : (l.filter p).length = 1 := by
    have hpos : 0 < (l.filter p).length := List.length_pos.mpr hne
    omega
  rcases List.length_eq_one.mp h1 with ⟨y, hy⟩
  have hxy : x = y := by
    rw [hy] at hmem
    exact List.mem_singleton.mp hmem
  rw [hy, hxy]

theorem endSub_no_active (st : DBState) (w : Nat) (now : Nat) (a : SubscriptionRow)
    (hle : (activeSubsFor st w).length ≤ 1)
    (hfa : findActiveSubscription st w = some a) :
    (endSubscription st a.id now).subscriptions.filter
      (fun (s : SubscriptionRow) => s.workspaceId == w && s.status == "active") = [] := by
  rw [findActiveSubscription] at hfa
  have hpa0 := List.find?_some hfa
  have hpa : (a.workspaceId == w && a.status == "active") = true := hpa0
  have hamem : a ∈ st.subscriptions := List.mem_of_find?_eq_some hfa
  have hfilter : activeSubsFor st w = [a] :=
    filter_singleton_of_mem _ _ _ hamem hpa hle
  apply List.filter_eq_nil_iff.mpr
  intro s hs
  simp only [endSubscription] at hs
  rcases List.mem_map.mp hs with ⟨r, hr, hre⟩
  by_cases hid : r.id == a.id
  · rw [if_pos hid] at hre
    rw [← hre]
    simp [endedRow]
  · rw [if_neg hid] at hre
    rw [← hre]
    intro hp
    have hrmem : r ∈ activeSubsFor st w := List.mem_filter.mpr ⟨hr, hp⟩
    rw [hfilter] at hrmem
    have : r = a := List.mem_singleton.mp hrmem
    subst this
    simp at hid

theorem endSub_ended (st : DBState) (w : Nat) (now : Nat) (a : SubscriptionRow)
    (hle : (activeSubsFor st w).length ≤ 1)
    (hfa : findActiveSubscription st w = some a) :
    ∀ s ∈ st.subscriptions, (s.workspaceId == w && s.status == "active") = true →
      endedRow s now ∈ (endSubscription st a.id now).subscriptions ∧
      s ∉ (endSubscription st a.id now).subscriptions := by
  intro s hs hps
  rw [findActiveSubscription] at hfa
  have hpa0 := List.find?_some hfa
  have hpa : (a.workspaceId == w && a.status == "active") = true := hpa0
  have hamem : a ∈ st.subscriptions := List.mem_of_find?_eq_some hfa
  have hfilter : activeSubsFor st w = [a] :=
    filter_singleton_of_mem _ _ _ hamem hpa hle
  have hsa : s = a := by
    have hsmem : s ∈ activeSubsFor st w := List.mem_filter.mpr ⟨hs, hps⟩
    rw [hfilter] at hsmem
    exact List.mem_singleton.mp hsmem
  subst hsa
  constructor
  · simp only [endSubscription]
    exact List.mem_map.mpr ⟨s, hs, by simp⟩
  · simp only [endSubscription]
    intro hcontra
    rcases List.mem_map.mp hcontra with ⟨r, hr, hre⟩
    have hstatus : s.status = "active" := by
      have := (Bool.and_eq_true _ _).mp hps
      exact eq_of_beq this.2
    by_cases hid : r.id == s.id
    · rw [if_pos hid] at hre
      have : s.status = "ended" := by rw [← hre]; rfl
      rw [hstatus] at this
      simp at this
    · rw [if_neg hid] at hre
      subst hre
      simp at hid

theorem no_active_filter_nil (st : DBState) (w : Nat)
    (hfa : findActiveSubscription st w = none) :
    st.subscriptions.filter
      (fun (s : SubscriptionRow) => s.workspaceId == w && s.status == "active") = [] := by
  rw [findActiveSubscription] at hfa
  exact List.filter_eq_nil_iff.mpr (List.find?_eq_none.mp hfa)

theorem create_conclusions_none (st : DBState) (wid : Nat) (now : Nat)
    (ns : SubscriptionRow)
    (hfa : findActiveSubscription st wid = none)
    (hnid : ns.id = st.nextSubId) (hnw : ns.workspaceId = wid)
    (hnst : ns.status = "active") (hnsd : ns.startDate = some now)
    (hnsc : ns.stripeCustomerId =
      jsOrNullStr ((findActiveSubscription st wid).bind (fun s => s.stripeCustomerId))) :
    (((st.subscriptions ++ [ns]).filter
      (fun (s : SubscriptionRow) => s.workspaceId == wid && s.status == "active")).length ≤ 1) ∧
    (∀ s ∈ st.subscriptions, (s.workspaceId == wid && s.status == "active") = true →
      endedRow s now ∈ st.subscriptions ++ [ns] ∧ s ∉ st.subscriptions ++ [ns]) ∧
    (∃ ns' , ns' ∈ st.subscriptions ++ [ns] ∧ ns'.id = st.nextSubId ∧
      ns'.workspaceId = wid ∧ ns'.status = "active" ∧ ns'.startDate = some now ∧
      ns'.stripeCustomerId =
        jsOrNullStr ((findActiveSubscription st wid).bind (fun s => s.stripeCustomerId))) := by
  refine ⟨?_, ?_, ?_⟩
  · rw [List.filter_append, no_active_filter_nil st wid hfa]
    simp [hnw, hnst]
  · intro s hs hps
    rw [findActiveSubscription] at hfa
    exact absurd hps (List.find?_eq_none.mp hfa s hs)
  · exact ⟨ns, List.mem_append_right _ (List.mem_singleton.mpr rfl),
      hnid, hnw, hnst, hnsd, hnsc⟩

theorem create_conclusions_some (st : DBState) (wid : Nat) (now : Nat)
    (a : SubscriptionRow) (ns : SubscriptionRow)
    (hle : (activeSubsFor st wid).length ≤ 1)
    (hfresh : ∀ r ∈ st.subscriptions, r.id < st.nextSubId)
    (hfa : findActiveSubscription st wid = some a)
    (hnid : ns.id = st.nextSubId) (hnw : ns.workspaceId = wid)
    (hnst : ns.status = "active") (hnsd : ns.startDate = some now)
    (hnsc : ns.stripeCustomerId =
      jsOrNullStr ((findActiveSubscription st wid).bind (fun s => s.stripeCustomerId))) :
    ((((endSubscription st a.id now).subscriptions ++ [ns]).filter
      (fun (s : SubscriptionRow) => s.workspaceId == wid && s.status == "active")).length ≤ 1) ∧
    (∀ s ∈ st.subscriptions, (s.workspaceId == wid && s.status == "active") = true →
      endedRow s now ∈ (endSubscription st a.id now).subscriptions ++ [ns] ∧
      s ∉ (endSubscription st a.id now).subscriptions ++ [ns]) ∧
    (∃ ns' , ns' ∈ (endSubscription st a.id now).subscriptions ++ [ns] ∧
      ns'.id = st.nextSubId ∧
      ns'.workspaceId = wid ∧ ns'.status = "active" ∧ ns'.startDate = some now ∧
      ns'.stripeCustomerId =
        jsOrNullStr ((findActiveSubscription st wid).bind (fun s => s.stripeCustomerId))) := by
  refine ⟨?_, ?_, ?_⟩
  · rw [List.filter_append, endSub_no_active st wid now a hle hfa]
    simp [hnw, hnst]
  · intro s hs hps
    obtain ⟨hmem, hnot⟩ := endSub_ended st wid now a hle hfa s hs hps
    refine ⟨List.mem_append_left _ hmem, ?_⟩
    intro hcontra
    rcases List.mem_append.mp hcontra with h | h
    · exact hnot h
    · have hsnew : s = ns := List.mem_singleton.mp h
      have hlt := hfresh s hs
      rw [hsnew, hnid] at hlt
      exact absurd hlt (lt_irrefl _)
  · exact ⟨ns, List.mem_append_right _ (List.mem_singleton.mpr rfl),
      hnid, hnw, hnst, hnsd, hnsc⟩

/-- C3 (amended): for every existing workspace with at most one active
subscription (and fresh subscription primary keys), after any of the three
internal subscribe functions succeeds the workspace again has at most one
active subscription; every previously active subscription row is replaced by
its copy with status `ended` and `endDate` set to now; and (for the test and
upgraded plans) the newly created subscription is active and carries over the
previous subscription's `stripeCustomerId` when that value is a non-empty
string (an absent or empty value is stored as null, per JavaScript
`|| null`). -/
theorem claim_C3_at_most_one_active_subscription :
    (∀ (st : DBState) (freeNoPlanData : PlanAttributes) (workspaceId : String)
        (w : WorkspaceRow) (now : Nat) (st' : DBState) (subT : SubscriptionType),
      findWorkspace st workspaceId = some w →
      (activeSubsFor st w.id).length ≤ 1 →
      internalSubscribeWorkspaceToFreeNoPlan st freeNoPlanData workspaceId now
        = Except.ok (st', subT) →
      (activeSubsFor st' w.id).length ≤ 1 ∧
      (∀ s ∈ st.subscriptions, (s.workspaceId == w.id && s.status == "active") = true →
        endedRow s now ∈ st'.subscriptions ∧ s ∉ st'.subscriptions)) ∧
    (∀ (st : DBState) (workspaceId : String) (w : WorkspaceRow) (now : Nat)
        (newSId : String) (st' : DBState) (subT : SubscriptionType),
      findWorkspace st workspaceId = some w →
      (activeSubsFor st w.id).length ≤ 1 →
      (∀ r ∈ st.subscriptions, r.id < st.nextSubId) →
      internalSubscribeWorkspaceToFreeTestPlan st workspaceId now newSId
        = Except.ok (st', subT) →
      (activeSubsFor st' w.id).length ≤ 1 ∧
      (∀ s ∈ st.subscriptions, (s.workspaceId == w.id && s.status == "active") = true →
        endedRow s now ∈ st'.subscriptions ∧ s ∉ st'.subscriptions) ∧
      (∃ ns, ns ∈ st'.subscriptions ∧ ns.id = st.nextSubId ∧ ns.workspaceId = w.id ∧
        ns.status = "active" ∧ ns.startDate = some now ∧
        ns.stripeCustomerId =
          jsOrNullStr ((findActiveSubscription st w.id).bind
            (fun s => s.stripeCustomerId)))) ∧
    (∀ (st : DBState) (workspaceId planCode : String) (w : WorkspaceRow) (now : Nat)
        (newSId : String) (st' : DBState) (subT : SubscriptionType),
      findWorkspace st workspaceId = some w →
      (activeSubsFor st w.id).length ≤ 1 →
      (∀ r ∈ st.subscriptions, r.id < st.nextSubId) →
      internalSubscribeWorkspaceToFreeUpgradedPlan st workspaceId planCode now newSId
        = Except.ok (st', subT) →
      (activeSubsFor st' w.id).length ≤ 1 ∧
      (∀ s ∈ st.subscriptions, (s.workspaceId == w.id && s.status == "active") = true →
        endedRow s now ∈ st'.subscriptions ∧ s ∉ st'.subscriptions) ∧
      (∃ ns, ns ∈ st'.subscriptions ∧ ns.id = st.nextSubId ∧ ns.workspaceId = w.id ∧
        ns.status = "active" ∧ ns.startDate = some now ∧
        ns.stripeCustomerId =
          jsOrNullStr ((findActiveSubscription st w.id).bind
            (fun s => s.stripeCustomerId)))) := by
  refine ⟨?_, ?_, ?_⟩
  · intro st freeNoPlanData workspaceId w now st' subT hw hle hok
    simp only [internalSubscribeWorkspaceToFreeNoPlan, hw] at hok
    cases hfa : findActiveSubscription st w.id with
    | none =>
      simp only [hfa, Except.ok.injEq, Prod.mk.injEq] at hok
      obtain ⟨hst, hsub⟩ := hok
      subst hst
      refine ⟨?_, ?_⟩
      · have hnil : activeSubsFor st w.id = [] := no_active_filter_nil st w.id hfa
        rw [hnil]
        simp
      · intro s hs hps
        rw [findActiveSubscription] at hfa
        exact absurd hps (List.find?_eq_none.mp hfa s hs)
    | some a =>
      simp only [hfa, Except.ok.injEq, Prod.mk.injEq] at hok
      obtain ⟨hst, hsub⟩ := hok
      subst hst
      refine ⟨?_, ?_⟩
      · have hnil := endSub_no_active st w.id now a hle hfa
        have hnil' : activeSubsFor (endSubscription st a.id now) w.id = [] := hnil
        rw [hnil']
        simp
      · exact endSub_ended st w.id now a hle hfa
  · intro st workspaceId w now newSId st' subT hw hle hfresh hok
    simp only [internalSubscribeWorkspaceToFreeTestPlan, hw] at hok
    cases hp : findPlanByCode st FREE_TEST_PLAN_CODE with
    | none =>
      simp only [hp] at hok
      exact Except.noConfusion hok
    | some plan =>
      cases hfa : findActiveSubscription st w.id with
      | none =>
        simp only [hp, hfa, Except.ok.injEq, Prod.mk.injEq] at hok
        obtain ⟨hst, hsub⟩ := hok
        subst hst
        dsimp only [activeSubsFor]
        have hconc := create_conclusions_none st w.id now
          (SubscriptionRow.mk st.nextSubId newSId w.id plan.id "active" (some now) none
            (jsOrNullStr (Option.bind (none : Option SubscriptionRow)
              (fun a => a.stripeCustomerId))) none none)
          hfa rfl rfl rfl rfl (by simp [hfa])
        rw [hfa] at hconc
        exact hconc
      | some a =>
        simp only [hp, hfa, Except.ok.injEq, Prod.mk.injEq] at hok
        obtain ⟨hst, hsub⟩ := hok
        subst hst
        dsimp only [activeSubsFor]
        have hconc := create_conclusions_some st w.id now a
          (SubscriptionRow.mk st.nextSubId newSId w.id plan.id "active" (some now) none
            (jsOrNullStr (Option.bind (some a) (fun a => a.stripeCustomerId))) none none)
          hle hfresh hfa rfl rfl rfl rfl (by simp [hfa])
        rw [hfa] at hconc
        exact hconc
  · intro st workspaceId planCode w now newSId st' subT hw hle hfresh hok
    simp only [internalSubscribeWorkspaceToFreeUpgradedPlan, hw] at hok
    cases hp : findPlanByCode st planCode with
    | none =>
      simp only [hp] at hok
      exact Except.noConfusion hok
    | some plan =>
      cases hfa : findActiveSubscription st w.id with
      | none =>
        simp only [hp, hfa] at hok
        rw [if_neg (by simp)] at hok
        simp only [Except.ok.injEq, Prod.mk.injEq] at hok
        obtain ⟨hst, hsub⟩ := hok
        subst hst
        dsimp only [activeSubsFor]
        have hconc := create_conclusions_none st w.id now
          (SubscriptionRow.mk st.nextSubId newSId w.id plan.id "active" (some now) none
            (jsOrNullStr (Option.bind (none : Option SubscriptionRow)
              (fun a => a.stripeCustomerId))) none none)
          hfa rfl rfl rfl rfl (by simp [hfa])
        rw [hfa] at hconc
        exact hconc
      | some a =>
        simp only [hp, hfa] at hok
        by_cases hpg : (a.planId == plan.id) = true
        · rw [if_pos hpg] at hok
          exact Except.noConfusion hok
        · rw [if_neg hpg] at hok
          simp only [Except.ok.injEq, Prod.mk.injEq] at hok
          obtain ⟨hst, hsub⟩ := hok
          subst hst
          dsimp only [activeSubsFor]
          have hconc := create_conclusions_some st w.id now a
            (SubscriptionRow.mk st.nextSubId newSId w.id plan.id "active" (some now) none
              (jsOrNullStr (Option.bind (some a) (fun a => a.stripeCustomerId))) none none)
            hle hfresh hfa rfl rfl rfl rfl (by simp [hfa])
          rw [hfa] at hconc
          exact hconc

/-- Witness for C3 at the concrete one-workspace state `cexState`. -/
theorem claim_C3_at_most_one_active_subscription_witness :
    (activeSubsFor cexStateAfter 1).length ≤ 1 ∧
    (∀ s ∈ cexState.subscriptions, (s.workspaceId == 1 && s.status == "active") = true →
      endedRow s 5 ∈ cexStateAfter.subscriptions ∧ s ∉ cexStateAfter.subscriptions) ∧
    (∃ ns, ns ∈ cexStateAfter.subscriptions ∧ ns.id = cexState.nextSubId ∧
      ns.workspaceId = 1 ∧ ns.status = "active" ∧ ns.startDate = some 5 ∧
      ns.stripeCustomerId =
        jsOrNullStr ((findActiveSubscription cexState 1).bind
          (fun s => s.stripeCustomerId))) :=
  claim_C3_at_most_one_active_subscription.2.1 cexState "w" (WorkspaceRow.mk 1 "w") 5 "s1"
    cexStateAfter cexSubTAfter rfl (by decide) (by decide) rfl

/-- Counterexample for C3 as stated: the previously active subscription of
`cexState` has `stripeCustomerId` equal to the empty string, but after
subscribing to the free test plan no subscription carries it: JavaScript
`activeSubscription?.stripeCustomerId || null` maps the (falsy) empty string
to null, so the new subscription holds null instead. -/
theorem claim_C3_counterexample_stripe_customer :
    cexState.subscriptions.map (fun s => s.stripeCustomerId) = [some ""] ∧
    (internalSubscribeWorkspaceToFreeTestPlan cexState "w" 5 "s1").toOption.map
      (fun p => p.1.subscriptions.map (fun s => s.stripeCustomerId)) =
      some [some "", none] := by
  decide

/-- C7 (amended): `downgradeWorkspaceToFreePlan` throws when the caller's
authenticator has no user, no workspace, no active plan, or is not an admin;
it also throws when the existing subscription is already on the free test
plan code, and when the free test plan row is missing, has a Stripe product
id, or is not billed free, or when the workspace row is absent; otherwise it
subscribes the workspace to the free test plan and returns that plan. -/
theorem claim_C7_downgrade_to_free_plan (st : DBState) (auth : Auth) (now : Nat)
    (newSId : String) :
    (¬(auth.hasUser = true ∧ auth.isAdmin = true ∧ auth.workspace ≠ none ∧
        auth.hasPlan = true) →
      downgradeWorkspaceToFreePlan st auth now newSId =
        Except.error "Unauthorized `auth` data: cannot process to subscription of new Plan.") ∧
    (∀ es, auth.subscription = some es → es.plan.code = FREE_TEST_PLAN_CODE →
      ∃ e, downgradeWorkspaceToFreePlan st auth now newSId = Except.error e) ∧
    (findPlanByCode st FREE_TEST_PLAN_CODE = none →
      ∃ e, downgradeWorkspaceToFreePlan st auth now newSId = Except.error e) ∧
    (∀ ftp, findPlanByCode st FREE_TEST_PLAN_CODE = some ftp →
      jsTruthyOptStr ftp.stripeProductId = true →
      ∃ e, downgradeWorkspaceToFreePlan st auth now newSId = Except.error e) ∧
    (∀ ftp, findPlanByCode st FREE_TEST_PLAN_CODE = some ftp →
      ftp.billingType ≠ "free" →
      ∃ e, downgradeWorkspaceToFreePlan st auth now newSId = Except.error e) ∧
    (∀ owner, auth.workspace = some owner → findWorkspace st owner.sId = none →
      ∃ e, downgradeWorkspaceToFreePlan st auth now newSId = Except.error e) ∧
    (∀ owner ftp w, auth.hasUser = true → auth.isAdmin = true → auth.hasPlan = true →
      auth.workspace = some owner →
      findPlanByCode st FREE_TEST_PLAN_CODE = some ftp →
      jsTruthyOptStr ftp.stripeProductId = false →
      ftp.billingType = "free" →
      (∀ es, auth.subscription = some es → es.plan.code ≠ FREE_TEST_PLAN_CODE) →
      findWorkspace st owner.sId = some w →
      ∃ st', downgradeWorkspaceToFreePlan st auth now newSId =
          Except.ok (st', renderPlanFromModel ftp.toPlanAttributes) ∧
        ∃ ns, ns ∈ st'.subscriptions ∧ ns.planId = ftp.id ∧ ns.status = "active" ∧
          ns.workspaceId = w.id) := by
  refine ⟨?_, ?_, ?_, ?_, ?_, ?_, ?_⟩
  · intro hbad
    cases hworkspace : auth.workspace with
    | none => simp [downgradeWorkspaceToFreePlan, hworkspace]
    | some owner =>
      cases hu : auth.hasUser with
      | false => simp [downgradeWorkspaceToFreePlan, hworkspace, hu]
      | true =>
        cases hadm : auth.isAdmin with
        | false => simp [downgradeWorkspaceToFreePlan, hworkspace, hu, hadm]
        | true =>
          cases hpl : auth.hasPlan with
          | false => simp [downgradeWorkspaceToFreePlan, hworkspace, hu, hadm, hpl]
          | true => exact absurd ⟨hu, hadm, by simp [hworkspace], hpl⟩ hbad
  · intro es hsub hcode
    cases hworkspace : auth.workspace with
    | none =>
      exact ⟨"Unauthorized `auth` data: cannot process to subscription of new Plan.",
        by simp [downgradeWorkspaceToFreePlan, hworkspace]⟩
    | some owner =>
      cases hguard : (!auth.hasUser || !auth.isAdmin || !auth.hasPlan) with
      | true =>
        refine ⟨"Unauthorized `auth` data: cannot process to subscription of new Plan.", ?_⟩
        simp only [downgradeWorkspaceToFreePlan, hworkspace, hguard, if_true]
      | false =>
        cases hp2 : findPlanByCode st FREE_TEST_PLAN_CODE with
        | none =>
          refine ⟨"Cannot downgrade to free plan " ++ FREE_TEST_PLAN_CODE ++
            ": not found.", ?_⟩
          simp only [downgradeWorkspaceToFreePlan, hworkspace, hguard, hp2,
            Bool.false_eq_true, if_false]
        | some ftp =>
          have hftpcode : ftp.code = FREE_TEST_PLAN_CODE := by
            have h0 := List.find?_some (by simpa [findPlanByCode] using hp2)
            exact eq_of_beq h0
          cases hprod : jsTruthyOptStr ftp.stripeProductId with
          | true =>
            refine ⟨"Cannot downgrade to free plan " ++ FREE_TEST_PLAN_CODE ++
              ": has a Stripe Product ID.", ?_⟩
            simp only [downgradeWorkspaceToFreePlan, hworkspace, hguard, hp2,
              Bool.false_eq_true, if_false, hprod, if_true]
          | false =>
            cases hbill : (ftp.billingType != "free") with
            | true =>
              refine ⟨"Cannot downgrade to free plan " ++ FREE_TEST_PLAN_CODE ++
                ": billingType is not \"free\".", ?_⟩
              simp only [downgradeWorkspaceToFreePlan, hworkspace, hguard, hp2,
                Bool.false_eq_true, if_false, hprod, hbill, if_true]
            | false =>
              have hbeq : (es.plan.code == ftp.code) = true := by
                rw [hftpcode, hcode]
                simp
              refine ⟨"Cannot downgrade to free plan " ++ FREE_TEST_PLAN_CODE ++
                ": already subscribed.", ?_⟩
              simp only [downgradeWorkspaceToFreePlan, hworkspace, hguard, hp2,
                Bool.false_eq_true, if_false, hprod, hbill, hsub, hbeq, if_true]
  · intro hp
    cases hworkspace : auth.workspace with
    | none =>
      exact ⟨"Unauthorized `auth` data: cannot process to subscription of new Plan.",
        by simp [downgradeWorkspaceToFreePlan, hworkspace]⟩
    | some owner =>
      cases hguard : (!auth.hasUser || !auth.isAdmin || !auth.hasPlan) with
      | true =>
        refine ⟨"Unauthorized `auth` data: cannot process to subscription of new Plan.", ?_⟩
        simp only [downgradeWorkspaceToFreePlan, hworkspace, hguard, if_true]
      | false =>
        refine ⟨"Cannot downgrade to free plan " ++ FREE_TEST_PLAN_CODE ++
          ": not found.", ?_⟩
        simp only [downgradeWorkspaceToFreePlan, hworkspace, hguard, hp,
          Bool.false_eq_true, if_false]
  · intro ftp hp hprod
    cases hworkspace : auth.workspace with
    | none =>
      exact ⟨"Unauthorized `auth` data: cannot process to subscription of new Plan.",
        by simp [downgradeWorkspaceToFreePlan, hworkspace]⟩
    | some owner =>
      cases hguard : (!auth.hasUser || !auth.isAdmin || !auth.hasPlan) with
      | true =>
        refine ⟨"Unauthorized `auth` data: cannot process to subscription of new Plan.", ?_⟩
        simp only [downgradeWorkspaceToFreePlan, hworkspace, hguard, if_true]
      | false =>
        refine ⟨"Cannot downgrade to free plan " ++ FREE_TEST_PLAN_CODE ++
          ": has a Stripe Product ID.", ?_⟩
        simp only [downgradeWorkspaceToFreePlan, hworkspace, hguard, hp,
          Bool.false_eq_true, if_false, hprod, if_true]
  · intro ftp hp hbillne
    cases hworkspace : auth.workspace with
    | none =>
      exact ⟨"Unauthorized `auth` data: cannot process to subscription of new Plan.",
        by simp [downgradeWorkspaceToFreePlan, hworkspace]⟩
    | some owner =>
      cases hguard : (!auth.hasUser || !auth.isAdmin || !auth.hasPlan) with
      | true =>
        refine ⟨"Unauthorized `auth` data: cannot process to subscription of new Plan.", ?_⟩
        simp only [downgradeWorkspaceToFreePlan, hworkspace, hguard, if_true]
      | false =>
        cases hprod : jsTruthyOptStr ftp.stripeProductId with
        | true =>
          refine ⟨"Cannot downgrade to free plan " ++ FREE_TEST_PLAN_CODE ++
            ": has a Stripe Product ID.", ?_⟩
          simp only [downgradeWorkspaceToFreePlan, hworkspace, hguard, hp,
            Bool.false_eq_true, if_false, hprod, if_true]
        | false =>
          have hbill : (ftp.billingType != "free") = true := by simp [hbillne]
          refine ⟨"Cannot downgrade to free plan " ++ FREE_TEST_PLAN_CODE ++
            ": billingType is not \"free\".", ?_⟩
          simp only [downgradeWorkspaceToFreePlan, hworkspace, hguard, hp,
            Bool.false_eq_true, if_false, hprod, hbill, if_true]
  · intro owner hworkspace hw0
    cases hguard : (!auth.hasUser || !auth.isAdmin || !auth.hasPlan) with
    | true =>
      refine ⟨"Unauthorized `auth` data: cannot process to subscription of new Plan.", ?_⟩
      simp only [downgradeWorkspaceToFreePlan, hworkspace, hguard, if_true]
    | false =>
      cases hp : findPlanByCode st FREE_TEST_PLAN_CODE with
      | none =>
        refine ⟨"Cannot downgrade to free plan " ++ FREE_TEST_PLAN_CODE ++
          ": not found.", ?_⟩
        simp only [downgradeWorkspaceToFreePlan, hworkspace, hguard, hp,
          Bool.false_eq_true, if_false]
      | some ftp =>
        cases hprod : jsTruthyOptStr ftp.stripeProductId with
        | true =>
          refine ⟨"Cannot downgrade to free plan " ++ FREE_TEST_PLAN_CODE ++
            ": has a Stripe Product ID.", ?_⟩
          simp only [downgradeWorkspaceToFreePlan, hworkspace, hguard, hp,
            Bool.false_eq_true, if_false, hprod, if_true]
        | false =>
          cases hbill : (ftp.billingType != "free") with
          | true =>
            refine ⟨"Cannot downgrade to free plan " ++ FREE_TEST_PLAN_CODE ++
              ": billingType is not \"free\".", ?_⟩
            simp only [downgradeWorkspaceToFreePlan, hworkspace, hguard, hp,
              Bool.false_eq_true, if_false, hprod, hbill, if_true]
          | false =>
            cases hsub : auth.subscription with
            | none =>
              refine ⟨"Cannot find workspace " ++ owner.sId, ?_⟩
              simp only [downgradeWorkspaceToFreePlan, hworkspace, hguard, hp,
                Bool.false_eq_true, if_false, hprod, hbill, hsub,
                internalSubscribeWorkspaceToFreeTestPlan, hw0]
            | some es =>
              cases hbeq : (es.plan.code == ftp.code) with
              | true =>
                refine ⟨"Cannot downgrade to free plan " ++ FREE_TEST_PLAN_CODE ++
                  ": already subscribed.", ?_⟩
                simp only [downgradeWorkspaceToFreePlan, hworkspace, hguard, hp,
                  Bool.false_eq_true, if_false, hprod, hbill, hsub, hbeq, if_true]
              | false =>
                refine ⟨"Cannot find workspace " ++ owner.sId, ?_⟩
                simp only [downgradeWorkspaceToFreePlan, hworkspace, hguard, hp,
                  Bool.false_eq_true, if_false, hprod, hbill, hsub, hbeq,
                  internalSubscribeWorkspaceToFreeTestPlan, hw0]
  · intro owner ftp w h1 h2 h3 hworkspace hp2 hprod hbill hnosub hwrow
    have hguard : (!auth.hasUser || !auth.isAdmin || !auth.hasPlan) = false := by
      simp [h1, h2, h3]
    have hbill2 : (ftp.billingType != "free") = false := by simp [hbill]
    have hftpcode : ftp.code = FREE_TEST_PLAN_CODE := by
      have h0 := List.find?_some (by simpa [findPlanByCode] using hp2)
      exact eq_of_beq h0
    have hsubguard : (match auth.subscription with
        | some existingSubscription => existingSubscription.plan.code == ftp.code
        | none => false) = false := by
      cases hsub : auth.subscription with
      | none => rfl
      | some es =>
        have := hnosub es hsub
        rw [hftpcode]
        simpa using this
    cases hfa : findActiveSubscription st w.id with
    | none =>
      refine ⟨DBState.mk st.workspaces st.plans
          (st.subscriptions ++ [SubscriptionRow.mk st.nextSubId newSId w.id ftp.id
            "active" (some now) none
            (jsOrNullStr (Option.bind (none : Option SubscriptionRow)
              (fun a => a.stripeCustomerId))) none none])
          (st.nextSubId + 1), ?_, ?_⟩
      · simp only [downgradeWorkspaceToFreePlan, hworkspace, hguard,
          Bool.false_eq_true, if_false, hp2, hprod, hbill2, hsubguard, if_true,
          internalSubscribeWorkspaceToFreeTestPlan, hwrow, hfa,
          renderSubscriptionFromModels]
      · exact ⟨SubscriptionRow.mk st.nextSubId newSId w.id ftp.id "active" (some now) none
          (jsOrNullStr (Option.bind (none : Option SubscriptionRow)
            (fun a => a.stripeCustomerId))) none none,
          List.mem_append_right _ (List.mem_singleton.mpr rfl), rfl, rfl, rfl⟩
    | some a =>
      refine ⟨DBState.mk (endSubscription st a.id now).workspaces
          (endSubscription st a.id now).plans
          ((endSubscription st a.id now).subscriptions ++
            [SubscriptionRow.mk st.nextSubId newSId w.id ftp.id "active" (some now) none
              (jsOrNullStr (Option.bind (some a) (fun a => a.stripeCustomerId))) none none])
          ((endSubscription st a.id now).nextSubId + 1), ?_, ?_⟩
      · simp only [downgradeWorkspaceToFreePlan, hworkspace, hguard,
          Bool.false_eq_true, if_false, hp2, hprod, hbill2, hsubguard, if_true,
          internalSubscribeWorkspaceToFreeTestPlan, hwrow, hfa,
          renderSubscriptionFromModels]
      · exact ⟨SubscriptionRow.mk st.nextSubId newSId w.id ftp.id "active" (some now) none
          (jsOrNullStr (Option.bind (some a) (fun a => a.stripeCustomerId))) none none,
          List.mem_append_right _ (List.mem_singleton.mpr rfl), rfl, rfl, rfl⟩

/-- Witness for C7: on a state holding the free test plan, an admin
authenticator with no free-test subscription successfully downgrades and gets
that plan back. -/
theorem claim_C7_downgrade_to_free_plan_witness :
    ∃ st', downgradeWorkspaceToFreePlan cexState cexAuth 7 "s1" =
        Except.ok (st', renderPlanFromModel cexPlanRow.toPlanAttributes) ∧
      ∃ ns, ns ∈ st'.subscriptions ∧ ns.planId = cexPlanRow.id ∧ ns.status = "active" ∧
        ns.workspaceId = (WorkspaceRow.mk 1 "w").id :=
  (claim_C7_downgrade_to_free_plan cexState cexAuth 7 "s1").2.2.2.2.2.2
    (WorkspaceRef.mk "w") cexPlanRow (WorkspaceRow.mk 1 "w")
    rfl rfl rfl rfl (by decide) rfl rfl
    (fun es hes => by simp [cexAuth] at hes) rfl

/-- Counterexample for C7 as stated: with a fully authorized admin whose
subscription is not on the free test plan, the call still throws when the
`Plan` table lacks the free test plan row, while the claim's "otherwise"
promises a successful subscription. -/
theorem claim_C7_counterexample_missing_plan :
    cexAuth.hasUser = true ∧ cexAuth.isAdmin = true ∧ cexAuth.hasPlan = true ∧
    cexAuth.workspace = some (WorkspaceRef.mk "w") ∧ cexAuth.subscription = none ∧
    findWorkspace cexStateNoPlan "w" = some (WorkspaceRow.mk 1 "w") ∧
    downgradeWorkspaceToFreePlan cexStateNoPlan cexAuth 7 "s1" =
      Except.error ("Cannot downgrade to free plan " ++ FREE_TEST_PLAN_CODE ++
        ": not found.") :=
  ⟨rfl, rfl, rfl, rfl, rfl, rfl, rfl⟩

end Plans
